import Mathlib

/-!
# Verification of the multi-window / tab orchestration core of chichid/alacritty

This file shallowly embeds the tab-collection, window-registry, command-queue,
PTY fan-in, tab-bar and display-resize logic of the repository
(`alacritty/src/multi_window/*.rs`, `alacritty/src/display.rs`) and proves or
refutes the specification claims about them.

Modelling conventions:
* `usize` indices become `Nat`; Rust `Vec` becomes `List`.
* Operations that can panic in Rust (`Vec::remove`/`Vec::insert`/indexing on an
  out-of-range index, `Option::unwrap` on `None`, `usize` subtraction overflow)
  are modelled as `Option`-returning functions, `none` meaning a panic.
* `f32`/`f64` arithmetic is modelled over `ℚ`; Rust's `%` on floats (remainder
  with the sign of the dividend) is `rustRem`, `f.floor()` is `Int`/`Rat` floor
  and `as usize` on a float is `Int.toNat ∘ floor` (saturating at zero exactly
  as a negative float cast to `usize` does).
* Identities handed out by external collaborators (fresh window ids from the
  windowing layer, fresh PTY/terminal objects from `tty::new`/`Term::new`) are
  modelled as `Nat` parameters carried by the corresponding commands.
-/

namespace Alacritty

/-- Truncated division rounding toward zero, i.e. Rust's `trunc(a / b)` for
floats; used to define the float `%` operator. -/
def truncQ (q : ℚ) : ℤ :=
  if 0 ≤ q then ⌊q⌋ else -⌊-q⌋

/-- Rust's `%` on floats: `a - b * trunc(a / b)` (the remainder keeps the sign
of the dividend).  For `a ≥ 0, b > 0` this agrees with the flooring remainder. -/
def rustRem (a b : ℚ) : ℚ :=
  a - b * (truncQ (a / b) : ℚ)

/-! ## `TermTab` and `TermTabCollection` (`multi_window/term_tab.rs`)

`TermTab` keeps, besides its dense `tab_id`, a `title` and an opaque `terminal`
identity standing for the `Arc<FairMutex<Term<_>>>` handle (together with the
PTY writer and resize handle that are created with it); this lets the theorems
speak about "the same tab" across reorders. -/

structure TermTab where
  tab_id : Nat
  title : String
  terminal : Nat
  deriving Repr, DecidableEq

structure TermTabCollection where
  active_tab : Nat
  tab_collection : List TermTab
  deriving Repr, DecidableEq

namespace TermTabCollection

/-- `TermTabCollection::tab_count`. -/
def tab_count (c : TermTabCollection) : Nat :=
  c.tab_collection.length

/-- `TermTabCollection::is_empty`. -/
def is_empty (c : TermTabCollection) : Bool :=
  c.tab_collection.isEmpty

/-- `TermTabCollection::active_tab`: `None` when `active_tab >= len`. -/
def active_tab? (c : TermTabCollection) : Option TermTab :=
  if c.active_tab ≥ c.tab_collection.length then none
  else c.tab_collection[c.active_tab]?

/-- `TermTabCollection::add_tab`: push a tab with `tab_id = len`, default
(empty) title, and the freshly created terminal `term`; returns the new id. -/
def add_tab (c : TermTabCollection) (term : Nat) : TermTabCollection × Nat :=
  let tab_id := c.tab_collection.length
  ({ c with tab_collection := c.tab_collection ++ [⟨tab_id, "", term⟩] }, tab_id)

/-- `TermTabCollection::activate_tab`: bounds-checked, out-of-range is a no-op. -/
def activate_tab (c : TermTabCollection) (tab_id : Nat) : TermTabCollection :=
  if tab_id < c.tab_collection.length then { c with active_tab := tab_id } else c

/-- One iteration of the renumbering loop in `TermTabCollection::move_tab`:
read `tab_collection[tid].tab_id`, move `active_tab` to `tid` when it matches,
then overwrite `tab_collection[tid].tab_id` with `tid`.  The fold mirrors the
sequential mutation of the Rust loop. -/
def moveRenumberStep (st : List TermTab × Nat) (tid : Nat) : List TermTab × Nat :=
  match st.1[tid]? with
  | none => st
  | some tab =>
      let act := if tab.tab_id = st.2 then tid else st.2
      (st.1.set tid { tab with tab_id := tid }, act)

/-- `TermTabCollection::move_tab`.  `Vec::remove(tab_id)` panics when
`tab_id ≥ len` and `Vec::insert(new_tab_id, _)` panics when `new_tab_id`
exceeds the length after removal; both panics are `none`. -/
def move_tab (c : TermTabCollection) (tab_id new_tab_id : Nat) :
    Option TermTabCollection :=
  match c.tab_collection[tab_id]? with
  | none => none
  | some tab =>
      let rest := c.tab_collection.eraseIdx tab_id
      if new_tab_id > rest.length then none
      else
        let inserted := rest.insertIdx new_tab_id tab
        let st := (List.range inserted.length).foldl moveRenumberStep
          (inserted, c.active_tab)
        some { active_tab := st.2, tab_collection := st.1 }

/-- The renumbering pass of `TermTabCollection::close_tab`
(`iter_mut().enumerate()` calling `update_tab_id`), starting at index `i`. -/
def renumberFrom : Nat → List TermTab → List TermTab
  | _, [] => []
  | i, t :: ts => { t with tab_id := i } :: renumberFrom (i + 1) ts

/-- `TermTabCollection::close_tab`: `Vec::remove(tab_id)` (panic = `none` when
out of range), clamp `active_tab` to `len - 1` when it overshoots and is
nonzero, then renumber every remaining tab.  The clamp computes
`self.tab_collection.len() - 1` on the shrunk vector: when that length is 0
(and `active_tab ≠ 0`) the `usize` subtraction underflows, a panic in a debug
build, likewise modelled as `none`. -/
def close_tab (c : TermTabCollection) (tab_id : Nat) : Option TermTabCollection :=
  if tab_id ≥ c.tab_collection.length then none
  else
    let rest := c.tab_collection.eraseIdx tab_id
    if c.active_tab ≥ rest.length ∧ c.active_tab ≠ 0 then
      if rest.length = 0 then none
      else some { active_tab := rest.length - 1, tab_collection := renumberFrom 0 rest }
    else some { active_tab := c.active_tab, tab_collection := renumberFrom 0 rest }

/-- `TermTabCollection::close_current_tab`. -/
def close_current_tab (c : TermTabCollection) : Option TermTabCollection :=
  c.close_tab c.active_tab

/-- `TermTabCollection::initialize` (renamed, reserved word): add one tab
(with a dummy size) and activate index 0. -/
def initCollection (term : Nat) : TermTabCollection :=
  let c : TermTabCollection := { active_tab := 0, tab_collection := [] }
  ((c.add_tab term).1.activate_tab 0)

end TermTabCollection

/-! ## `WindowContext` and `WindowContextTracker`
(`multi_window/window_context_tracker.rs`)

The `HashMap<WindowId, WindowContext>` is modelled as a list of contexts with
pairwise distinct `window_id`s; only the key set and the tab collections
matter to the claims, so the display/processor state is not carried. -/

structure WindowContext where
  window_id : Nat
  term_tab_collection : TermTabCollection
  deriving Repr, DecidableEq

structure WindowContextTracker where
  active_window_id : Option Nat
  map : List WindowContext
  deriving Repr, DecidableEq

namespace WindowContextTracker

/-- `self.map.contains_key(&window_id)`. -/
def containsKey (t : WindowContextTracker) (window_id : Nat) : Bool :=
  t.map.any (fun ctx => ctx.window_id = window_id)

/-- `WindowContextTracker::is_empty`. -/
def is_empty (t : WindowContextTracker) : Bool :=
  t.map.isEmpty

/-- `WindowContextTracker::has_active_window`. -/
def has_active_window (t : WindowContextTracker) : Bool :=
  t.active_window_id ≠ none

/-- `WindowContextTracker::get_context`. -/
def get_context (t : WindowContextTracker) (window_id : Nat) : Option WindowContext :=
  t.map.find? (fun ctx => ctx.window_id = window_id)

/-- Write back a window context under its `window_id` (the `HashMap` slot the
Rust code mutates through the shared `Arc`s). -/
def setContext (t : WindowContextTracker) (ctx : WindowContext) : WindowContextTracker :=
  { t with map := t.map.map (fun c => if c.window_id = ctx.window_id then ctx else c) }

/-- `WindowContextTracker::activate_window`: sets the active slot
unconditionally, with no membership check. -/
def activate_window (t : WindowContextTracker) (window_id : Nat) : WindowContextTracker :=
  { t with active_window_id := some window_id }

/-- `WindowContextTracker::deactivate_window`. -/
def deactivate_window (t : WindowContextTracker) (window_id : Nat) : WindowContextTracker :=
  if t.active_window_id = some window_id then { t with active_window_id := none } else t

/-- `WindowContextTracker::close_window`: no-op on an unknown id, otherwise
clear the active slot when it names this window and remove the entry. -/
def close_window (t : WindowContextTracker) (window_id : Nat) : WindowContextTracker :=
  if ¬ t.containsKey window_id then t
  else
    let t' := if t.active_window_id = some window_id
      then { t with active_window_id := none } else t
    { t' with map := t'.map.filter (fun ctx => ctx.window_id ≠ window_id) }

/-- `WindowContextTracker::create_window_context` (successful case):
a new `WindowContext` whose tab collection is `initialize`d with one tab, is
inserted and made active.  `window_id` is the fresh id handed out by the
windowing layer and `term` the fresh terminal identity from `Term::new`. -/
def create_window_context (t : WindowContextTracker) (window_id term : Nat) :
    WindowContextTracker :=
  let ctx : WindowContext := { window_id, term_tab_collection := .initCollection term }
  { active_window_id := some window_id,
    map := if t.containsKey window_id
      then (t.setContext ctx).map
      else t.map ++ [ctx] }

end WindowContextTracker

/-! ## `MultiWindowCommand` and `MultiWindowCommandQueue::run`
(`multi_window/command_queue.rs`)

`CreateWindow` and `CreateTab` carry an extra `Nat` naming the fresh
window id / terminal identity produced by the external collaborators. -/

inductive MultiWindowCommand where
  | CreateWindow (window_id term : Nat)
  | ActivateWindow (window_id : Nat)
  | DeactivateWindow (window_id : Nat)
  | CloseWindow (window_id : Nat)
  | CreateTab (window_id term : Nat)
  | MoveTab (window_id tab_id new_tab_id : Nat)
  | SetTabTitle (window_id tab_id : Nat) (title : String)
  | ActivateTab (window_id tab_id : Nat)
  | CloseCurrentTab (window_id : Nat)
  | CloseTab (window_id tab_id : Nat)
  deriving Repr, DecidableEq

/-- `update_size` (command_queue.rs): `active_tab().unwrap()` panics when the
active index is out of range; the size propagation itself has no effect on the
modelled state. -/
def update_size (c : Alacritty.TermTabCollection) : Option Unit :=
  match c.active_tab? with
  | none => none
  | some _ => some ()

open WindowContextTracker in
/-- One arm of the `match` in `MultiWindowCommandQueue::run`, applied to the
tracker; `none` is a propagated panic. -/
def runCommand (t : WindowContextTracker) :
    MultiWindowCommand → Option WindowContextTracker
  | .CreateWindow window_id term =>
      some (t.create_window_context window_id term)
  | .ActivateWindow window_id => some (t.activate_window window_id)
  | .DeactivateWindow window_id => some (t.deactivate_window window_id)
  | .CloseWindow window_id => some (t.close_window window_id)
  | .SetTabTitle window_id tab_id title =>
      match t.get_context window_id with
      | none => some t
      | some ctx =>
          -- `tab_mut(tab_id)` indexes the `Vec` and panics out of range
          match ctx.term_tab_collection.tab_collection[tab_id]? with
          | none => none
          | some tab =>
              let tabs := { ctx.term_tab_collection with
                tab_collection := ctx.term_tab_collection.tab_collection.set
                  tab_id { tab with title } }
              some (t.setContext { ctx with term_tab_collection := tabs })
  | .CreateTab window_id term =>
      match t.get_context window_id with
      | none => some t
      | some ctx =>
          let (tabs, tab_id) := ctx.term_tab_collection.add_tab term
          let tabs := tabs.activate_tab tab_id
          match update_size tabs with
          | none => none
          | some _ => some (t.setContext { ctx with term_tab_collection := tabs })
  | .MoveTab window_id tab_id new_tab_id =>
      match t.get_context window_id with
      | none => some t
      | some ctx =>
          match ctx.term_tab_collection.move_tab tab_id new_tab_id with
          | none => none
          | some tabs => some (t.setContext { ctx with term_tab_collection := tabs })
  | .ActivateTab window_id tab_id =>
      match t.get_context window_id with
      | none => some t
      | some ctx =>
          let tabs := ctx.term_tab_collection.activate_tab tab_id
          some (t.setContext { ctx with term_tab_collection := tabs })
  | .CloseCurrentTab window_id =>
      match t.get_context window_id with
      | none => some t
      | some ctx =>
          match ctx.term_tab_collection.close_current_tab with
          | none => none
          | some tabs =>
              if tabs.is_empty then some (t.close_window ctx.window_id)
              else
                match update_size tabs with
                | none => none
                | some _ =>
                    some (t.setContext { ctx with term_tab_collection := tabs })
  | .CloseTab window_id tab_id =>
      match t.get_context window_id with
      | none => some t
      | some ctx =>
          match ctx.term_tab_collection.close_tab tab_id with
          | none => none
          | some tabs =>
              if tabs.is_empty then some (t.close_window ctx.window_id)
              else
                match update_size tabs with
                | none => none
                | some _ =>
                    some (t.setContext { ctx with term_tab_collection := tabs })

/-- Drain a queue of commands in order (`MultiWindowCommandQueue::run`). -/
def runCommands (t : WindowContextTracker) :
    List MultiWindowCommand → Option WindowContextTracker
  | [] => some t
  | c :: cs => match runCommand t c with
    | none => none
    | some t' => runCommands t' cs

/-! ## PTY fan-in (`multi_window/multi_window_processor.rs`)

`handle_pty_events` drains at most one `MultiWindowEvent` from the forwarder
channel per main-loop iteration.  The drained item is the `Option
MultiWindowEvent` argument (`none` = `try_recv` returned `Err`). -/

inductive TerminalEvent where
  | Exit
  | Title (s : String)
  | Wakeup
  | Urgent
  | MouseCursorDirty
  deriving Repr, DecidableEq

structure MultiWindowEvent where
  wrapped_event : TerminalEvent
  window_id : Option Nat
  tab_id : Nat
  deriving Repr, DecidableEq

open WindowContextTracker in
/-- `MultiWindowProcessor::handle_pty_events`.  The outer `Option` is a panic
(`close_tab`/`tab_mut` out of range); the inner `Option Bool` is the Rust
return value, where `none` makes the main-loop iteration return early. -/
def handle_pty_events (t : WindowContextTracker) (recv : Option MultiWindowEvent) :
    Option (WindowContextTracker × Option Bool) :=
  match recv with
  | none => some (t, some true)           -- try_recv() returned Err
  | some ev =>
      match ev.window_id with
      | none => some (t, none)            -- `result.window_id?`
      | some window_id =>
          match t.get_context window_id with
          | none => some (t, none)        -- `context_tracker.get_context(..)?`
          | some ctx =>
              match ev.wrapped_event with
              | .Exit =>
                  match ctx.term_tab_collection.close_tab ev.tab_id with
                  | none => none
                  | some tabs =>
                      if tabs.is_empty then
                        some ((t.setContext { ctx with term_tab_collection := tabs
                          }).close_window window_id, none)
                      else
                        match tabs.active_tab? with
                        | none => some (t.setContext
                            { ctx with term_tab_collection := tabs }, none)
                        | some _ => some (t.setContext
                            { ctx with term_tab_collection := tabs }, none)
              | .Title s =>
                  match ctx.term_tab_collection.tab_collection[ev.tab_id]? with
                  | none => none
                  | some tab =>
                      let tabs := { ctx.term_tab_collection with
                        tab_collection := ctx.term_tab_collection.tab_collection.set
                          ev.tab_id { tab with title := s } }
                      some (t.setContext { ctx with term_tab_collection := tabs },
                        some true)
              | _ => some (t, some true)

/-- The early-exit check at the top of the main loop (`multi_window_processor.rs`
lines 59–63): once the registry is empty, `*control_flow = ControlFlow::Exit`. -/
def main_loop_signals_exit (t : WindowContextTracker) : Bool :=
  t.is_empty

/-! ## Display resize (`display.rs`) -/

/-- `SizeInfo` (physical pixels), over `ℚ`. -/
structure SizeInfo where
  width : ℚ
  height : ℚ
  cell_width : ℚ
  cell_height : ℚ
  padding_x : ℚ
  padding_y : ℚ
  dpr : ℚ
  deriving Repr, DecidableEq

/-- The window-related configuration read by `Display::handle_update`:
`config.window.padding` (a `u8` pair, hence nonnegative) and
`config.window.dynamic_padding`. -/
structure DisplayConfig where
  padding_x : ℚ
  padding_y : ℚ
  dynamic_padding : Bool
  deriving Repr, DecidableEq

/-- `DisplayUpdate`: coalesced pending changes.  A `font` update ends in
`update_glyph_cache` recomputing the cell size from the rasterizer's metrics;
the resulting `(cell_width, cell_height)` pair is carried here opaquely. -/
structure DisplayUpdate where
  dimensions : Option (ℚ × ℚ)
  font : Option (ℚ × ℚ)
  deriving Repr, DecidableEq

/-- `dynamic_padding` (display.rs lines 619–623):
`padding + ((dimension - 2. * padding) % cell_dimension) / 2.`. -/
def dynamic_padding (padding dimension cell_dimension : ℚ) : ℚ :=
  padding + (rustRem (dimension - 2 * padding) cell_dimension) / 2

/-- `Display::handle_update` (display.rs lines 301–356), returning the updated
`size_info` together with the `pty_size` handed to both the PTY resize handle
(`on_resize`) and the terminal (`terminal.resize`).  `message_lines` is
`message.text(&size_info).len()` for the active message bar message, `none`
when the message buffer is empty. -/
def handle_update (si : SizeInfo) (config : DisplayConfig)
    (message_lines : Option Nat) (update_pending : DisplayUpdate) :
    SizeInfo × SizeInfo :=
  -- `if let Some(font) = update_pending.font { self.update_glyph_cache(..) }`
  let si := match update_pending.font with
    | none => si
    | some (cw, ch) => { si with cell_width := cw, cell_height := ch }
  let cell_width := si.cell_width
  let cell_height := si.cell_height
  -- Recalculate padding
  let padding_x := config.padding_x * si.dpr
  let padding_y := config.padding_y * si.dpr
  -- Update the window dimensions, ensuring at least one column and row
  let si := match update_pending.dimensions with
    | none => si
    | some (w, h) =>
        { si with width := max w (cell_width + 2 * padding_x),
                  height := max h (cell_height + 2 * padding_y) }
  -- Distribute excess padding equally on all sides
  let padding_x := if config.dynamic_padding
    then dynamic_padding padding_x si.width cell_width else padding_x
  let padding_y := if config.dynamic_padding
    then dynamic_padding padding_y si.height cell_height else padding_y
  let si := { si with padding_x := (⌊padding_x⌋ : ℚ), padding_y := (⌊padding_y⌋ : ℚ) }
  -- Subtract message bar lines from pty size
  let pty_size := match message_lines with
    | none => si
    | some lines => { si with height := si.height - si.cell_height * lines }
  (si, pty_size)

/-! ## Tab bar (`multi_window/tab_bar.rs`) -/

def CLOSE_ICON_PADDING : ℚ := 10
def CLOSE_ICON_WIDTH : ℚ := 10

/-- The tab-bar part of the window configuration: `config.window.tab_bar_height`. -/
structure TabBarConfig where
  tab_bar_height : ℚ
  deriving Repr, DecidableEq

structure TabState where
  title : String
  x : ℚ
  y : ℚ
  width : ℚ
  height : ℚ
  active : Bool
  hovered : Bool
  deriving Repr, DecidableEq

structure DraggingInfo where
  tab_id : Nat
  ghost_tab_index : Option Nat
  is_detached : Bool
  initial_tab_state : TabState
  deriving Repr, DecidableEq

structure TabBarState where
  tabs : List TabState
  dragged_tab : Option TabState
  active_tab_index : Option Nat
  hovered_tab : Option Nat
  dragging_info : Option DraggingInfo
  deriving Repr, DecidableEq

/-- The panic sites of `TabBarProcessor::handle_event`, distinguished so that
theorems can speak about one `unwrap` in particular.  A thrown value models a
Rust panic at that site (index out of range, `Option::unwrap` on `None`, or a
debug-mode `usize` underflow). -/
inductive TabBarPanic where
  | pressUnwrapCurrentPos     -- `self.current_mouse_position.unwrap()` line 303
  | dragUnwrapMouseDownPos    -- `self.mouse_down_position.unwrap()` line 360
  | dragUnwrapCurrentPos      -- `self.current_mouse_position.unwrap()` line 363
  | tabStateIndexOutOfRange   -- `self.tabs[index]` via `tab_state(..)`
  | tabCountUnderflow         -- `(tab_count - 1)` with `tab_count == 0`
  deriving Repr, DecidableEq

namespace TabBarState

def new : TabBarState :=
  { tabs := [], dragged_tab := none, active_tab_index := none,
    hovered_tab := none, dragging_info := none }

def tab_count (st : TabBarState) : Nat :=
  st.tabs.length

/-- `TabBarState::tab_bar_height`: `size_info.dpr * config.window.tab_bar_height`. -/
def tab_bar_height (si : SizeInfo) (config : TabBarConfig) : ℚ :=
  si.dpr * config.tab_bar_height

/-- One iteration of the snapshot loop in `TabBarState::update`.  The
accumulator is the `tabs` vector under construction and `current_tab_x`. -/
def updateStep (st : TabBarState) (tc : TermTabCollection) (width height : ℚ)
    (is_detached : Bool) (acc : List TabState × ℚ) (i : Nat) : List TabState × ℚ :=
  let is_dragging : Bool := match st.dragging_info with
    | some di => di.tab_id == i
    | none => false
  if is_dragging && is_detached then acc
  else
    let active : Bool := match st.active_tab_index with
      | some a => !is_dragging && a == i
      | none => false
    let hovered : Bool := match st.hovered_tab with
      | some h => !is_dragging && h == i
      | none => false
    let title := if is_dragging then ""
      else ((tc.tab_collection[i]?).map TermTab.title).getD ""
    let x := match st.dragging_info with
      | some di =>
          match di.ghost_tab_index with
          | some g =>
              if i = di.tab_id then (g : ℚ) * width
              else if g ≤ i ∧ i < di.tab_id then acc.2 + width
              else if i ≤ g ∧ i > di.tab_id then acc.2 - width
              else acc.2
          | none => acc.2
      | none => acc.2
    (acc.1 ++ [{ title, x, y := 0, width, height, active, hovered }],
     acc.2 + width)

/-- `TabBarState::update`: rebuild the rendering snapshot from the live tab
collection.  When a detached ghost is being dragged the remaining tabs share
`size_info.width / (tab_count - 1)`; with `tab_count == 0` that subtraction
underflows (a panic in a debug build). -/
def update (st : TabBarState) (si : SizeInfo) (config : TabBarConfig)
    (tc : TermTabCollection) : Except TabBarPanic TabBarState :=
  let tab_count := tc.tab_count
  let is_dragging_ghost_detached : Bool := match st.dragging_info with
    | some di => di.is_detached
    | none => false
  let active_tab_index := (tc.active_tab?).map TermTab.tab_id
  let height := tab_bar_height si config
  if is_dragging_ghost_detached && tab_count == 0 then
    .error .tabCountUnderflow
  else
    let width := if is_dragging_ghost_detached
      then si.width / ((tab_count - 1 : Nat) : ℚ)
      else si.width / (tab_count : ℚ)
    let st' := { st with active_tab_index }
    let acc := (List.range tab_count).foldl
      (updateStep st' tc width height is_dragging_ghost_detached) ([], 0)
    .ok { st' with tabs := acc.1 }

/-- `TabBarState::update_dragging_info`. -/
def update_dragging_info (st : TabBarState) (config : TabBarConfig)
    (si : SizeInfo) (tab_id : Nat) (deltax deltay : ℚ) :
    Except TabBarPanic TabBarState :=
  let tab_state? : Except TabBarPanic TabState := match st.dragging_info with
    | some di => .ok di.initial_tab_state
    | none =>
        match st.tabs[tab_id]? with
        | some ts => .ok ts
        | none => .error .tabStateIndexOutOfRange
  match tab_state? with
  | .error e => .error e
  | .ok tab_state =>
      let is_detached := deltay > tab_bar_height si config * (3 / 2)
      let x := tab_state.x + deltax
      let y := if is_detached then 0 + deltay else 0
      let ghost_tab_index := if is_detached then none
        else
          -- `tab_id as i32 + (0.5 + deltax / width).floor() as i32`, clamped by
          -- `.max(0) as usize`
          let g : ℤ := (tab_id : ℤ) + ⌊(1 / 2 : ℚ) + deltax / tab_state.width⌋
          some (Int.toNat (max g 0))
      let dragged_tab_state : TabState :=
        { x := min (max x 0) (si.width - tab_state.width),
          y := min (max y 0) (si.height * si.dpr),
          width := tab_state.width,
          height := tab_state.height,
          title := tab_state.title,
          active := true,
          hovered := true }
      .ok { st with
        dragged_tab := some dragged_tab_state,
        dragging_info := some
          { tab_id, ghost_tab_index, is_detached, initial_tab_state := tab_state } }

/-- `TabBarState::update_hovered_tab`; returns the updated state and
`did_update`. -/
def update_hovered_tab (st : TabBarState) (hovered_tab : Option Nat) :
    TabBarState × Bool :=
  ({ st with hovered_tab }, decide (st.hovered_tab ≠ hovered_tab))

/-- `TabBarState::clear_dragging_info`; returns the updated state and
`did_change`. -/
def clear_dragging_info (st : TabBarState) : TabBarState × Bool :=
  ({ st with dragging_info := none, dragged_tab := none },
   st.dragging_info.isSome)

end TabBarState

inductive CursorIcon where
  | Hand
  | Default
  deriving Repr, DecidableEq

/-- The window events consumed by `TabBarProcessor::handle_event`.  Positions
are winit `LogicalPosition`s. -/
inductive GlutinEvent where
  | RedrawRequested (window_id : Nat)
  | CursorMoved (window_id : Nat) (position : ℚ × ℚ)
  | MouseInput (window_id : Nat) (pressed : Bool) (left : Bool)
  | Other
  deriving Repr, DecidableEq

structure TabBarProcessor where
  tab_bar_state : TabBarState
  is_mouse_down : Bool
  mouse_down_position : Option (ℚ × ℚ)
  current_mouse_position : Option (ℚ × ℚ)
  mouse_down_window : Option Nat
  current_window : Option Nat
  deriving Repr, DecidableEq

namespace TabBarProcessor

/-- `TabBarProcessor::new`. -/
def new (tab_bar_state : TabBarState) : TabBarProcessor :=
  { tab_bar_state,
    is_mouse_down := false,
    mouse_down_position := none,
    current_mouse_position := none,
    mouse_down_window := none,
    current_window := none }

/-- `TabBarProcessor::get_tab_from_mouse_position` (tab_bar.rs lines 395–423).
While a detached ghost is dragged, the hit test counts one tab more than the
snapshot holds.  The bar is invisible for at most one tab (`None`).  Inside
the strip (`position.y * dpr < tab_bar_height * dpr`) the result is
`(position.x * tab_count * dpr / size_info.width).floor() as usize`; a
negative float cast to `usize` saturates at 0, hence `Int.toNat`. -/
def get_tab_from_mouse_position (p : TabBarProcessor) (config : TabBarConfig)
    (si : SizeInfo) (position : ℚ × ℚ) : Option Nat :=
  let dpr := si.dpr
  let is_dragging_detached : Bool := match p.tab_bar_state.dragging_info with
    | some di => di.is_detached
    | none => false
  let tab_count := if is_dragging_detached
    then p.tab_bar_state.tab_count + 1
    else p.tab_bar_state.tab_count
  if tab_count ≤ 1 then none
  else
    let tab_height := config.tab_bar_height * dpr
    let y := position.2 * dpr
    if y < tab_height then
      some (Int.toNat ⌊position.1 * (tab_count : ℚ) * dpr / si.width⌋)
    else none

/-- `TabBarProcessor::is_hover_close_button`: indexes the snapshot at
`hovered_tab` (a panic when the snapshot is shorter), then tests whether the
cursor sits in the leftmost `CLOSE_ICON_PADDING + 2 * CLOSE_ICON_WIDTH`
pixels of the tab (`(dpr * mouse.x) % tab_width`). -/
def is_hover_close_button (p : TabBarProcessor) (si : SizeInfo) :
    Except TabBarPanic Bool :=
  match p.tab_bar_state.hovered_tab with
  | none => .ok false
  | some hovered_tab =>
      match p.current_mouse_position with
      | none => .ok false
      | some mouse_pos =>
          match p.tab_bar_state.tabs[hovered_tab]? with
          | none => .error .tabStateIndexOutOfRange
          | some ts =>
              let tab_x := rustRem (si.dpr * mouse_pos.1) ts.width
              .ok (tab_x < CLOSE_ICON_PADDING + CLOSE_ICON_WIDTH * 2)

/-- `TabBarProcessor::handle_mouse_down`: push `CloseTab` when the cursor is
on a close hotspot, otherwise `ActivateTab`, provided a tab was hit at all. -/
def handle_mouse_down (p : TabBarProcessor) (window_id : Nat)
    (mouse_position : ℚ × ℚ) (config : TabBarConfig) (si : SizeInfo) :
    Except TabBarPanic (List MultiWindowCommand) :=
  match p.get_tab_from_mouse_position config si mouse_position with
  | none => .ok []
  | some pressed_tab =>
      match p.is_hover_close_button si with
      | .error e => .error e
      | .ok true => .ok [.CloseTab window_id pressed_tab]
      | .ok false => .ok [.ActivateTab window_id pressed_tab]

/-- `TabBarProcessor::handle_mouse_up`. -/
def handle_mouse_up (p : TabBarProcessor) : TabBarProcessor × Bool :=
  let (st, did) := p.tab_bar_state.clear_dragging_info
  ({ p with tab_bar_state := st }, did)

/-- `TabBarProcessor::handle_tab_drag`: unwraps `mouse_down_position` and (when
the press position hits a tab) `current_mouse_position`, then records the drag
deltas; a miss clears the drag state instead. -/
def handle_tab_drag (p : TabBarProcessor) (config : TabBarConfig)
    (si : SizeInfo) : Except TabBarPanic (TabBarProcessor × Bool) :=
  match p.mouse_down_position with
  | none => .error .dragUnwrapMouseDownPos
  | some mouse_down_position =>
      match p.get_tab_from_mouse_position config si mouse_down_position with
      | some tab_id =>
          match p.current_mouse_position with
          | none => .error .dragUnwrapCurrentPos
          | some current_mouse_position =>
              let deltax := (current_mouse_position.1 - mouse_down_position.1) * si.dpr
              let deltay := (current_mouse_position.2 - mouse_down_position.2) * si.dpr
              match p.tab_bar_state.update_dragging_info config si tab_id deltax deltay with
              | .error e => .error e
              | .ok st => .ok ({ p with tab_bar_state := st }, true)
      | none =>
          let (st, did) := p.tab_bar_state.clear_dragging_info
          .ok ({ p with tab_bar_state := st }, did)

/-- `TabBarProcessor::handle_hover`: recompute the hovered tab from the cursor
position, then set the cursor icon from the close-hotspot test; returns
`did_update`. -/
def handle_hover (p : TabBarProcessor) (config : TabBarConfig) (si : SizeInfo) :
    Except TabBarPanic (TabBarProcessor × Bool × Option CursorIcon) :=
  let hovered_tab := match p.current_mouse_position with
    | some current => p.get_tab_from_mouse_position config si current
    | none => none
  let (st, did_update) := p.tab_bar_state.update_hovered_tab hovered_tab
  let p := { p with tab_bar_state := st }
  match p.is_hover_close_button si with
  | .error e => .error e
  | .ok true => .ok (p, did_update, some CursorIcon.Hand)
  | .ok false => .ok (p, did_update, some CursorIcon.Default)

/-- The result quadruple of `handle_event`:
`(need_redraw, skip_processor_run, cursor_icon)` plus the commands pushed
onto the `MultiWindowCommandQueue`. -/
structure HandleEventResult where
  need_redraw : Bool
  skip_processor_run : Bool
  cursor_icon : Option CursorIcon
  commands : List MultiWindowCommand
  deriving Repr, DecidableEq

/-- The `RedrawRequested` arm of `handle_event`: rebuild the snapshot. -/
def handleRedraw (p : TabBarProcessor) (tc : TermTabCollection)
    (config : TabBarConfig) (si : SizeInfo) :
    Except TabBarPanic (TabBarProcessor × Bool × Bool × Bool ×
      Option CursorIcon × List MultiWindowCommand) :=
  match p.tab_bar_state.update si config tc with
  | .error e => .error e
  | .ok st => .ok ({ p with tab_bar_state := st }, false, false, false, none, [])

/-- The body of the `CursorMoved` arm after the mouse-down position has been
latched: run the drag logic while the button is down, record the cursor
position, and (when not dragging) refresh the hover state. -/
def cursorMovedTail (p : TabBarProcessor) (config : TabBarConfig)
    (si : SizeInfo) (window_id : Nat) (position : ℚ × ℚ) :
    Except TabBarPanic (TabBarProcessor × Bool × Bool × Bool ×
      Option CursorIcon × List MultiWindowCommand) :=
  let dragged : Except TabBarPanic (TabBarProcessor × Bool) :=
    if p.is_mouse_down then p.handle_tab_drag config si
    else .ok (p, false)
  match dragged with
  | .error e => .error e
  | .ok (p, is_dragging) =>
      let tab_state_updated := is_dragging
      let p := { p with current_mouse_position := some position,
                        current_window := some window_id }
      if !is_dragging then
        match p.handle_hover config si with
        | .error e => .error e
        | .ok (p, did_update, icon) =>
            .ok (p, did_update, false, is_dragging, icon, [])
      else
        .ok (p, tab_state_updated, false, is_dragging, none, [])

/-- The `CursorMoved` arm of `handle_event`: latch the mouse-down position if
the button is down and none is recorded yet, then run `cursorMovedTail`. -/
def handleCursorMoved (p : TabBarProcessor) (config : TabBarConfig)
    (si : SizeInfo) (window_id : Nat) (position : ℚ × ℚ) :
    Except TabBarPanic (TabBarProcessor × Bool × Bool × Bool ×
      Option CursorIcon × List MultiWindowCommand) :=
  cursorMovedTail
    (if p.is_mouse_down && p.mouse_down_position.isNone
      then { p with mouse_down_position := some position } else p)
    config si window_id position

/-- The fresh-left-press block of the `MouseInput` arm
(`if new_mouse_down && !self.is_mouse_down { .. }`): clear the latched press
position, record the press window and dispatch `handle_mouse_down` at the
unwrapped cursor position. -/
def mouseInputPress (p : TabBarProcessor) (config : TabBarConfig)
    (si : SizeInfo) (window_id : Nat) (pressed left : Bool) :
    Except TabBarPanic (TabBarProcessor × List MultiWindowCommand) :=
  if (pressed && left) && !p.is_mouse_down then
    let p := { p with mouse_down_position := none,
                      mouse_down_window := some window_id }
    match p.current_mouse_position with
    | none => .error .pressUnwrapCurrentPos
    | some mp =>
        match p.handle_mouse_down window_id mp config si with
        | .error e => .error e
        | .ok cmds => .ok (p, cmds)
  else .ok (p, [])

/-- The remainder of the `MouseInput` arm: clear the drag state on release
(`is_mouse_up` is set exactly when the release branch runs), store the new
`is_mouse_down`, and refresh the hover state. -/
def mouseInputTail (p : TabBarProcessor) (config : TabBarConfig)
    (si : SizeInfo) (pressed left : Bool)
    (cmds : List MultiWindowCommand) :
    Except TabBarPanic (TabBarProcessor × Bool × Bool × Bool ×
      Option CursorIcon × List MultiWindowCommand) :=
  let is_mouse_up := p.is_mouse_down && !pressed
  let p := if p.is_mouse_down && !pressed then p.handle_mouse_up.1 else p
  let p := { p with is_mouse_down := pressed && left }
  match p.handle_hover config si with
  | .error e => .error e
  | .ok (p, tab_state_updated, icon) =>
      .ok (p, tab_state_updated, is_mouse_up, false, icon, cmds)

/-- The `MouseInput` arm of `handle_event`. -/
def handleMouseInput (p : TabBarProcessor) (config : TabBarConfig)
    (si : SizeInfo) (window_id : Nat) (pressed left : Bool) :
    Except TabBarPanic (TabBarProcessor × Bool × Bool × Bool ×
      Option CursorIcon × List MultiWindowCommand) :=
  match mouseInputPress p config si window_id pressed left with
  | .error e => .error e
  | .ok (p, cmds) => mouseInputTail p config si pressed left cmds

/-- `TabBarProcessor::handle_event` (tab_bar.rs lines 245–336).  The
intermediate sextuple is
`(processor, tab_state_updated, is_mouse_up, is_dragging, cursor_icon, cmds)`. -/
def handle_event (p : TabBarProcessor) (tc : TermTabCollection)
    (config : TabBarConfig) (si : SizeInfo) (event : GlutinEvent) :
    Except TabBarPanic (TabBarProcessor × HandleEventResult) :=
  let afterMatch :
      Except TabBarPanic (TabBarProcessor × Bool × Bool × Bool ×
        Option CursorIcon × List MultiWindowCommand) :=
    match event with
    | .RedrawRequested _ => handleRedraw p tc config si
    | .CursorMoved window_id position =>
        handleCursorMoved p config si window_id position
    | .MouseInput window_id pressed left =>
        handleMouseInput p config si window_id pressed left
    | .Other => .ok (p, false, false, false, none, [])
  match afterMatch with
  | .error e => .error e
  | .ok (p, tab_state_updated, is_mouse_up, is_dragging, cursor_icon, cmds) =>
      let is_mouse_event : Bool := match event with
        | .CursorMoved _ _ => true
        | .MouseInput _ _ _ => true
        | _ => false
      let need_redraw := tab_state_updated || is_dragging || is_mouse_up
      let skip_processor_run : Bool :=
        match is_mouse_event, p.current_mouse_position with
        | true, some current =>
            -- note: the y test here is against the *unscaled* config height
            decide (p.tab_bar_state.tab_count > 1) && decide (current.2 < config.tab_bar_height)
        | _, _ => false
      .ok (p, { need_redraw, skip_processor_run, cursor_icon, commands := cmds })

end TabBarProcessor

/-- `TabBarRenderer::ellipsis_tab_title` (tab_bar.rs lines 623–636).  The title
is a byte/char list (`title.len()` is the byte length; titles are assumed
ASCII so that `&title[..cut_point]` is `take cut_point`).  `cut_point` is
`title.len() - (delta / cell_width).floor() as usize`; when the subtrahend
exceeds the length the `usize` subtraction panics (`none`). -/
def ellipsis_tab_title (title : List Char) (cell_width dpr drag_aware_width : ℚ) :
    Option (List Char) :=
  let ellipsis : List Char := ['.', '.', '.']
  let text_width := (title.length : ℚ) * cell_width
  let title_padding := 4 * (CLOSE_ICON_WIDTH + CLOSE_ICON_PADDING) * dpr
  let truncated_text_width := (ellipsis.length : ℚ) * cell_width + text_width + title_padding
  let delta := truncated_text_width - drag_aware_width
  if delta > 0 then
    let k := Int.toNat ⌊delta / cell_width⌋
    if k > title.length then none
    else some (title.take (title.length - k) ++ ellipsis)
  else some title

/-- Run `handle_event` over a sequence of events; each event comes with the
collection / config / size the surrounding main loop would pass at that
iteration. -/
def runTabBarEvents (p : TabBarProcessor) :
    List (GlutinEvent × TermTabCollection × TabBarConfig × SizeInfo) →
    Except TabBarPanic TabBarProcessor
  | [] => .ok p
  | (ev, tc, config, si) :: rest =>
      match p.handle_event tc config si ev with
      | .error e => .error e
      | .ok (p', _) => runTabBarEvents p' rest

/-- A CursorMoved event is delivered before the first left-button press
(vacuously true when no left press occurs). -/
def cursorMovedBeforeFirstPress :
    List (GlutinEvent × TermTabCollection × TabBarConfig × SizeInfo) → Bool
  | [] => true
  | (.CursorMoved _ _, _) :: _ => true
  | (.MouseInput _ pressed left, _) :: rest =>
      if pressed && left then false else cursorMovedBeforeFirstPress rest
  | _ :: rest => cursorMovedBeforeFirstPress rest

/-- The registry invariant of spec §3: the active slot, when `Some`, names a
key of the window map. -/
def registry_invariant (t : WindowContextTracker) : Bool :=
  t.active_window_id.all (fun id => t.containsKey id)

/-- Checks, along a command run, that every `ActivateWindow` names a window
that is a key of the map at the moment the command executes. -/
def activateTargetsKnown (t : WindowContextTracker) :
    List MultiWindowCommand → Bool
  | [] => true
  | c :: cs =>
      (match c with
        | .ActivateWindow w => t.containsKey w
        | _ => true) &&
      (match runCommand t c with
        | none => true
        | some t' => activateTargetsKnown t' cs)

/-! ## Concrete example states used by counterexamples and witnesses -/

/-- A three-tab collection, tab `i` carrying title `"t<i>"` and terminal
identity `i`, with the last tab active. -/
def exTabs3 : TermTabCollection :=
  { active_tab := 2,
    tab_collection := [⟨0, "t0", 0⟩, ⟨1, "t1", 1⟩, ⟨2, "t2", 2⟩] }

/-- A single-tab collection. -/
def exTabs1 : TermTabCollection :=
  { active_tab := 0, tab_collection := [⟨0, "first", 10⟩] }

/-- A freshly initialized tracker: one window `w0 = 0` with one tab, active. -/
def exTracker1 : WindowContextTracker :=
  { active_window_id := some 0,
    map := [{ window_id := 0, term_tab_collection := exTabs1 }] }

/-- The S2 command sequence of the spec, with fresh terminal identities 11
and 12 for the two created tabs. -/
def exS2Commands : List MultiWindowCommand :=
  [.CreateTab 0 11, .CreateTab 0 12, .ActivateTab 0 1, .CloseTab 0 0]

/-- A snapshot `TabState` for a 400-pixel-wide tab. -/
def exTabState : TabState :=
  { title := "", x := 0, y := 0, width := 400, height := 48,
    active := false, hovered := false }

/-- A tab-bar snapshot of two tabs, no drag in progress. -/
def exBarState2 : TabBarState :=
  { tabs := [exTabState, { exTabState with x := 400 }],
    dragged_tab := none, active_tab_index := some 0,
    hovered_tab := none, dragging_info := none }

/-- A tab-bar processor over the two-tab snapshot. -/
def exProcessor2 : TabBarProcessor :=
  TabBarProcessor.new exBarState2

/-- `tab_bar_height = 24` as in scenario S5. -/
def exTabCfg : TabBarConfig := { tab_bar_height := 24 }

/-- Physical size 800 × 600 at device pixel ratio 2. -/
def exSize800 : SizeInfo :=
  { width := 800, height := 600, cell_width := 8, cell_height := 16,
    padding_x := 0, padding_y := 0, dpr := 2 }

/-- Physical width 1600 (logical window width 800 at dpr 2). -/
def exSize1600 : SizeInfo := { exSize800 with width := 1600 }

/-- A two-tab `TermTabCollection` for driving the tab-bar snapshot. -/
def exTabs2 : TermTabCollection :=
  { active_tab := 0, tab_collection := [⟨0, "a", 0⟩, ⟨1, "b", 1⟩] }

/-- The snapshot entry the redraw of the C10 trace builds for tab 0. -/
def exC10TabA : TabState :=
  { title := "a", x := 0, y := 0, width := 400, height := 48,
    active := true, hovered := false }

/-- The snapshot entry the redraw of the C10 trace builds for tab 1. -/
def exC10TabB : TabState :=
  { title := "b", x := 400, y := 0, width := 400, height := 48,
    active := false, hovered := false }

/-- The tab-bar state after the redraw of the C10 trace. -/
def exC10State : TabBarState :=
  { tabs := [exC10TabA, exC10TabB], dragged_tab := none,
    active_tab_index := some 0, hovered_tab := none, dragging_info := none }

/-- A redraw followed by a cursor movement to `x = 401` inside the bar strip:
the hit test maps that position to tab index 2 although the snapshot holds
only two tabs, so the hover path indexes past the snapshot. -/
def exC10Events :
    List (GlutinEvent × TermTabCollection × TabBarConfig × SizeInfo) :=
  [(.RedrawRequested 0, exTabs2, exTabCfg, exSize800),
   (.CursorMoved 0 (401, 0), exTabs2, exTabCfg, exSize800)]

/-! # Theorems -/

theorem truncQ_eq_floor_of_nonneg {q : ℚ} (h : 0 ≤ q) : truncQ q = ⌊q⌋ := by
  simp [truncQ, h]

/-- C2.  `move_tab(2, 0)` on three tabs `[t0, t1, t2]` with `active_tab = 2`:
the moved tab (terminal identity 2) does land at index 0 with dense renumbered
ids, but the renumbering loop cascades `active_tab` back to 2 — the index now
holding the former tab `t1` — instead of following the moved tab to index 0 as
the spec requires.  The loop compares each tab's pre-move `tab_id` against the
`active_tab` value it is itself rewriting, so after correctly setting
`active_tab := 0` at index 0 it matches the stale id 0 at index 1, then the
stale id 1 at index 2. -/
theorem C2_move_tab_active_cascade :
    exTabs3.move_tab 2 0 =
      some { active_tab := 2,
             tab_collection := [⟨0, "t2", 2⟩, ⟨1, "t0", 0⟩, ⟨2, "t1", 1⟩] } := by
  decide

/-- C3 (counterexample).  Running the S2 sequence
`CreateTab; CreateTab; ActivateTab(w0, 1); CloseTab(w0, 0)` from a one-tab
window leaves `active_index = 1`, not 0 as the claim states: `close_tab` only
clamps an overshooting `active_tab`, it never shifts it down across a removal
at a lower index. -/
theorem C3_scenario_active_index_counterexample :
    (runCommands exTracker1 exS2Commands).bind
      (fun t => (t.get_context 0).map
        (fun ctx => ctx.term_tab_collection.active_tab)) ≠ some 0 := by
  decide

/-- C3 (amended).  The full outcome of the S2 sequence: two tabs remain, they
are the former tabs 1 and 2 (terminal identities 11 and 12, titles preserved),
their `tab_id`s are 0 and 1, and `active_index = 1` — the active slot keeps
its numeric value, so the active tab is now the former tab 2. -/
theorem C3_scenario_amended :
    runCommands exTracker1 exS2Commands =
      some { active_window_id := some 0,
             map := [{ window_id := 0,
                       term_tab_collection :=
                         { active_tab := 1,
                           tab_collection := [⟨0, "", 11⟩, ⟨1, "", 12⟩] } }] } := by
  decide

/-- C4 (counterexample).  On a one-tab collection, `close_tab(1)` and
`move_tab(1, 0)` are not no-ops: `Vec::remove` panics on the out-of-range
index (modelled as `none`), so neither call "returns normally leaving the
collection unchanged". -/
theorem C4_out_of_range_panics_counterexample :
    exTabs1.close_tab 1 = none ∧ exTabs1.move_tab 1 0 = none := by
  decide

theorem getElem?_eraseIdx_of_lt {l : List TermTab} {k j : Nat} (h : j < k) :
    (l.eraseIdx k)[j]? = l[j]? := by
  induction l generalizing k j with
  | nil => simp [List.eraseIdx]
  | cons a as ih =>
      cases k with
      | zero => omega
      | succ k =>
          cases j with
          | zero => simp [List.eraseIdx]
          | succ j => simpa [List.eraseIdx] using ih (by omega)

theorem getElem?_eraseIdx_of_ge {l : List TermTab} {k j : Nat} (h : k ≤ j) :
    (l.eraseIdx k)[j]? = l[j + 1]? := by
  induction l generalizing k j with
  | nil => simp [List.eraseIdx]
  | cons a as ih =>
      cases k with
      | zero => simp [List.eraseIdx]
      | succ k =>
          cases j with
          | zero => omega
          | succ j => simpa [List.eraseIdx] using ih (by omega)

/-- C4 (amended).  `move_tab` panics (`none`) precisely when one of its two
indices is out of range — `remove(tab_id)` demands `tab_id < len` and
`insert(new_tab_id, ..)` demands `new_tab_id ≤ len - 1` — and `close_tab`
panics whenever its index is out of range; neither is a no-op there. -/
theorem C4_out_of_range_amended (c : TermTabCollection) (a b k : Nat) :
    (c.move_tab a b = none ↔
      c.tab_collection.length ≤ a ∨ c.tab_collection.length ≤ b) ∧
    (c.tab_collection.length ≤ k → c.close_tab k = none) := by
  constructor
  · unfold TermTabCollection.move_tab
    cases hget : c.tab_collection[a]? with
    | none =>
        have ha : c.tab_collection.length ≤ a := by
          simpa using List.getElem?_eq_none_iff.mp hget
        simp [ha]
    | some tab =>
        have ha : a < c.tab_collection.length := by
          by_contra hcon
          rw [List.getElem?_eq_none_iff.mpr (by omega)] at hget
          exact Option.noConfusion hget
        have hrest : (c.tab_collection.eraseIdx a).length =
            c.tab_collection.length - 1 := by
          simp [List.length_eraseIdx, ha]
        constructor
        · intro hnone
          by_cases hb : b > (c.tab_collection.eraseIdx a).length
          · right; omega
          · simp [hb] at hnone
        · intro hor
          have hb : b > (c.tab_collection.eraseIdx a).length := by
            rcases hor with h | h
            · omega
            · omega
          simp [hb]
  · intro hk
    unfold TermTabCollection.close_tab
    simp [hk]

/-- C4 witness. -/
theorem C4_out_of_range_amended_witness :
    exTabs1.move_tab 0 5 = none ∧ exTabs1.close_tab 3 = none :=
  ⟨(C4_out_of_range_amended exTabs1 0 5 0).1.mpr (by decide),
   (C4_out_of_range_amended exTabs1 0 0 3).2 (by decide)⟩

theorem length_renumberFrom (i : Nat) (l : List TermTab) :
    (TermTabCollection.renumberFrom i l).length = l.length := by
  induction l generalizing i with
  | nil => rfl
  | cons a as ih => simp [TermTabCollection.renumberFrom, ih]

theorem getElem?_renumberFrom (i j : Nat) (l : List TermTab) :
    (TermTabCollection.renumberFrom i l)[j]? =
      (l[j]?).map (fun t => { t with tab_id := i + j }) := by
  induction l generalizing i j with
  | nil => simp [TermTabCollection.renumberFrom]
  | cons a as ih =>
      cases j with
      | zero => simp [TermTabCollection.renumberFrom]
      | succ j =>
          have heq : i + 1 + j = i + (j + 1) := by omega
          have := ih (i + 1) j
          rw [heq] at this
          simpa [TermTabCollection.renumberFrom] using this

/-- C5.  `close_tab(k)` on a valid collection of `N ≥ 1` tabs with `k < N`:
one tab fewer remains; for `j < k` the tab at `j` is unchanged except for its
renumbered `tab_id = j`; for `j ≥ k` the original tab at `j + 1` sits at `j`
with `tab_id = j`; and the collection is empty or `active_index < N - 1`.
The validity hypothesis `active_tab < N` is the TabCollection invariant of
spec §3 (without it the clamp's `len - 1` can underflow, see C4/C2). -/
theorem C5_close_tab_spec (c : TermTabCollection) (k : Nat)
    (hk : k < c.tab_collection.length)
    (hact : c.active_tab < c.tab_collection.length) :
    ∃ c', c.close_tab k = some c' ∧
      c'.tab_collection.length = c.tab_collection.length - 1 ∧
      (∀ j, j < k → c'.tab_collection[j]? =
        (c.tab_collection[j]?).map (fun t => { t with tab_id := j })) ∧
      (∀ j, k ≤ j → c'.tab_collection[j]? =
        (c.tab_collection[j + 1]?).map (fun t => { t with tab_id := j })) ∧
      (c'.tab_collection = [] ∨
        c'.active_tab < c.tab_collection.length - 1) := by
  have hrest : (c.tab_collection.eraseIdx k).length = c.tab_collection.length - 1 := by
    simp [List.length_eraseIdx, hk]
  have hget1 : ∀ j, j < k →
      (TermTabCollection.renumberFrom 0 (c.tab_collection.eraseIdx k))[j]? =
        (c.tab_collection[j]?).map (fun t => { t with tab_id := j }) := by
    intro j hj
    rw [getElem?_renumberFrom, getElem?_eraseIdx_of_lt hj]
    simp
  have hget2 : ∀ j, k ≤ j →
      (TermTabCollection.renumberFrom 0 (c.tab_collection.eraseIdx k))[j]? =
        (c.tab_collection[j + 1]?).map (fun t => { t with tab_id := j }) := by
    intro j hj
    rw [getElem?_renumberFrom, getElem?_eraseIdx_of_ge hj]
    simp
  have hlen : (TermTabCollection.renumberFrom 0 (c.tab_collection.eraseIdx k)).length =
      c.tab_collection.length - 1 := by
    rw [length_renumberFrom]; exact hrest
  unfold TermTabCollection.close_tab
  rw [if_neg (by omega)]
  by_cases hcl : c.active_tab ≥ (c.tab_collection.eraseIdx k).length ∧ c.active_tab ≠ 0
  · have hne : (c.tab_collection.eraseIdx k).length ≠ 0 := by
      intro h0
      have h1 : c.tab_collection.length = 1 := by omega
      have : c.active_tab = 0 := by omega
      exact hcl.2 this
    rw [if_pos hcl, if_neg hne]
    exact ⟨_, rfl, hlen, hget1, hget2, Or.inr (by simp only; omega)⟩
  · rw [if_neg hcl]
    refine ⟨_, rfl, hlen, hget1, hget2, ?_⟩
    rw [Classical.not_and_iff_or_not_not] at hcl
    by_cases h0 : c.active_tab = 0
    · by_cases hone : c.tab_collection.length = 1
      · left
        simp only
        have : (TermTabCollection.renumberFrom 0 (c.tab_collection.eraseIdx k)).length = 0 := by
          omega
        exact List.length_eq_zero.mp this
      · right; simp only; omega
    · right
      have : c.active_tab < (c.tab_collection.eraseIdx k).length := by
        rcases hcl with h | h
        · omega
        · exact absurd h0 (by simpa using h)
      simp only
      omega

/-- C5 witness: closing tab 0 of the three-tab example. -/
theorem C5_close_tab_spec_witness :
    (0 < exTabs3.tab_collection.length ∧
      exTabs3.active_tab < exTabs3.tab_collection.length) ∧
    ∃ c', exTabs3.close_tab 0 = some c' ∧
      c'.tab_collection.length = exTabs3.tab_collection.length - 1 ∧
      (∀ j, j < 0 → c'.tab_collection[j]? =
        (exTabs3.tab_collection[j]?).map (fun t => { t with tab_id := j })) ∧
      (∀ j, 0 ≤ j → c'.tab_collection[j]? =
        (exTabs3.tab_collection[j + 1]?).map (fun t => { t with tab_id := j })) ∧
      (c'.tab_collection = [] ∨
        c'.active_tab < exTabs3.tab_collection.length - 1) :=
  ⟨⟨by decide, by decide⟩, C5_close_tab_spec exTabs3 0 (by decide) (by decide)⟩

/-- C1 (counterexample).  From a freshly initialized registry (one window with
id 0, active), `ActivateWindow 5` with 5 not a key of the map is *not* a
no-op: it sets the active slot to 5, violating the invariant that the active
slot names a key of the map. -/
theorem C1_activate_unknown_counterexample :
    runCommand exTracker1 (.ActivateWindow 5) =
      some { exTracker1 with active_window_id := some 5 } ∧
    ({ exTracker1 with active_window_id := some 5 } :
      WindowContextTracker).containsKey 5 = false := by
  decide

theorem any_window_id_map_if (l : List WindowContext) (ctx : WindowContext)
    (id : Nat) :
    (l.map (fun c => if c.window_id = ctx.window_id then ctx else c)).any
      (fun c => c.window_id = id) = l.any (fun c => c.window_id = id) := by
  induction l with
  | nil => rfl
  | cons a as ih =>
      by_cases h : a.window_id = ctx.window_id
      · simp [h, ih]
      · simp [h, ih]

theorem containsKey_setContext (t : WindowContextTracker) (ctx : WindowContext)
    (id : Nat) : (t.setContext ctx).containsKey id = t.containsKey id := by
  unfold WindowContextTracker.setContext WindowContextTracker.containsKey
  exact any_window_id_map_if t.map ctx id

theorem active_setContext (t : WindowContextTracker) (ctx : WindowContext) :
    (t.setContext ctx).active_window_id = t.active_window_id := rfl

theorem registry_invariant_setContext (t : WindowContextTracker)
    (ctx : WindowContext) :
    registry_invariant (t.setContext ctx) = registry_invariant t := by
  unfold registry_invariant
  rw [active_setContext]
  cases t.active_window_id with
  | none => rfl
  | some id => simp [Option.all, containsKey_setContext t ctx id]

theorem containsKey_filter_ne (l : List WindowContext) (w id : Nat)
    (hne : id ≠ w) (h : l.any (fun c => c.window_id = id) = true) :
    (l.filter (fun c => c.window_id ≠ w)).any (fun c => c.window_id = id) = true := by
  rw [List.any_eq_true] at h ⊢
  obtain ⟨c, hc, hcid⟩ := h
  refine ⟨c, List.mem_filter.mpr ⟨hc, ?_⟩, hcid⟩
  have : c.window_id = id := by simpa using hcid
  simpa [this] using hne

theorem close_window_clears_active (t : WindowContextTracker) (w : Nat)
    (hinv : registry_invariant t = true)
    (hact : t.active_window_id = some w) :
    (t.close_window w).active_window_id = none := by
  have hkey : t.containsKey w = true := by
    unfold registry_invariant at hinv
    rw [hact] at hinv
    simpa [Option.all] using hinv
  unfold WindowContextTracker.close_window
  simp [hkey, hact]

theorem registry_invariant_close_window (t : WindowContextTracker) (w : Nat)
    (hinv : registry_invariant t = true) :
    registry_invariant (t.close_window w) = true := by
  unfold WindowContextTracker.close_window
  by_cases hkey : t.containsKey w = true
  · simp only [hkey, not_true, if_false]
    by_cases hact : t.active_window_id = some w
    · simp [hact, registry_invariant, Option.all]
    · rw [if_neg hact]
      unfold registry_invariant at hinv ⊢
      cases ha : t.active_window_id with
      | none => simp [Option.all]
      | some id =>
          rw [ha] at hinv
          have hne : id ≠ w := by
            intro h
            exact hact (by rw [ha, h])
          have := containsKey_filter_ne t.map w id hne
            (by simpa [Option.all, WindowContextTracker.containsKey] using hinv)
          simpa [Option.all, WindowContextTracker.containsKey] using this
  · simp only [Bool.not_eq_true] at hkey
    simp only [hkey]
    simpa using hinv

theorem containsKey_create_window_context (t : WindowContextTracker)
    (w term : Nat) :
    (t.create_window_context w term).containsKey w = true := by
  unfold WindowContextTracker.create_window_context
  by_cases hkey : t.containsKey w = true
  · simp only [hkey, if_true]
    have := containsKey_setContext t
      { window_id := w, term_tab_collection := .initCollection term } w
    unfold WindowContextTracker.containsKey at this ⊢
    unfold WindowContextTracker.containsKey at hkey
    simpa [this] using hkey
  · simp only [Bool.not_eq_true] at hkey
    simp only [hkey, Bool.false_eq_true, if_false]
    unfold WindowContextTracker.containsKey
    simp

theorem runCommand_preserves_invariant (t t' : WindowContextTracker)
    (c : MultiWindowCommand) (hinv : registry_invariant t = true)
    (hact : ∀ w, c = .ActivateWindow w → t.containsKey w = true)
    (hrun : runCommand t c = some t') : registry_invariant t' = true := by
  cases c with
  | CreateWindow w term =>
      simp only [runCommand] at hrun
      rw [Option.some_inj] at hrun
      subst hrun
      have h1 : (t.create_window_context w term).active_window_id = some w := by
        unfold WindowContextTracker.create_window_context
        rfl
      unfold registry_invariant
      rw [h1]
      simpa [Option.all] using containsKey_create_window_context t w term
  | ActivateWindow w =>
      simp only [runCommand] at hrun
      rw [Option.some_inj] at hrun
      subst hrun
      unfold registry_invariant WindowContextTracker.activate_window
      simpa [Option.all, WindowContextTracker.containsKey] using hact w rfl
  | DeactivateWindow w =>
      simp only [runCommand] at hrun
      rw [Option.some_inj] at hrun
      subst hrun
      unfold WindowContextTracker.deactivate_window
      by_cases h : t.active_window_id = some w
      · simp [h, registry_invariant, Option.all]
      · simpa [h] using hinv
  | CloseWindow w =>
      simp only [runCommand] at hrun
      rw [Option.some_inj] at hrun
      subst hrun
      exact registry_invariant_close_window t w hinv
  | SetTabTitle w tid title =>
      simp only [runCommand] at hrun
      split at hrun
      · rw [Option.some_inj] at hrun; subst hrun; exact hinv
      · split at hrun
        · exact Option.noConfusion hrun
        · rw [Option.some_inj] at hrun
          subst hrun
          rw [registry_invariant_setContext]
          exact hinv
  | CreateTab w term =>
      simp only [runCommand] at hrun
      split at hrun
      · rw [Option.some_inj] at hrun; subst hrun; exact hinv
      · split at hrun
        · exact Option.noConfusion hrun
        · rw [Option.some_inj] at hrun
          subst hrun
          rw [registry_invariant_setContext]
          exact hinv
  | MoveTab w a b =>
      simp only [runCommand] at hrun
      split at hrun
      · rw [Option.some_inj] at hrun; subst hrun; exact hinv
      · split at hrun
        · exact Option.noConfusion hrun
        · rw [Option.some_inj] at hrun
          subst hrun
          rw [registry_invariant_setContext]
          exact hinv
  | ActivateTab w tid =>
      simp only [runCommand] at hrun
      split at hrun
      · rw [Option.some_inj] at hrun; subst hrun; exact hinv
      · rw [Option.some_inj] at hrun
        subst hrun
        rw [registry_invariant_setContext]
        exact hinv
  | CloseCurrentTab w =>
      simp only [runCommand] at hrun
      split at hrun
      · rw [Option.some_inj] at hrun; subst hrun; exact hinv
      · split at hrun
        · exact Option.noConfusion hrun
        · split at hrun
          · rw [Option.some_inj] at hrun
            subst hrun
            exact registry_invariant_close_window t _ hinv
          · split at hrun
            · exact Option.noConfusion hrun
            · rw [Option.some_inj] at hrun
              subst hrun
              rw [registry_invariant_setContext]
              exact hinv
  | CloseTab w tid =>
      simp only [runCommand] at hrun
      split at hrun
      · rw [Option.some_inj] at hrun; subst hrun; exact hinv
      · split at hrun
        · exact Option.noConfusion hrun
        · split at hrun
          · rw [Option.some_inj] at hrun
            subst hrun
            exact registry_invariant_close_window t _ hinv
          · split at hrun
            · exact Option.noConfusion hrun
            · rw [Option.some_inj] at hrun
              subst hrun
              rw [registry_invariant_setContext]
              exact hinv

/-- C1 (amended).  The registry invariant — the active slot, when `Some`,
names a key of the window map — is preserved by every command run whose
`ActivateWindow` commands only name windows that are keys at the moment the
command executes (`activate_window` itself performs no membership check, see
the counterexample); and `CloseWindow(w)` clears the active slot whenever `w`
was the active window. -/
theorem C1_registry_invariant_amended (t t' : WindowContextTracker)
    (cmds : List MultiWindowCommand)
    (hinv : registry_invariant t = true)
    (hgood : activateTargetsKnown t cmds = true)
    (hrun : runCommands t cmds = some t') :
    registry_invariant t' = true ∧
    (∀ w, t.active_window_id = some w →
      (t.close_window w).active_window_id = none) := by
  refine ⟨?_, fun w hw => close_window_clears_active t w hinv hw⟩
  induction cmds generalizing t with
  | nil =>
      unfold runCommands at hrun
      rw [Option.some_inj] at hrun
      subst hrun
      exact hinv
  | cons c cs ih =>
      unfold runCommands at hrun
      unfold activateTargetsKnown at hgood
      rw [Bool.and_eq_true] at hgood
      cases hstep : runCommand t c with
      | none => rw [hstep] at hrun; exact Option.noConfusion hrun
      | some t1 =>
          rw [hstep] at hrun
          have hinv1 : registry_invariant t1 = true := by
            refine runCommand_preserves_invariant t t1 c hinv ?_ hstep
            intro w hc
            subst hc
            simpa using hgood.1
          have hgood1 : activateTargetsKnown t1 cs = true := by
            have := hgood.2
            rw [hstep] at this
            exact this
          exact ih t1 hinv1 hgood1 hrun

/-- C6.  With a registry holding exactly one window `w` that has exactly one
(valid) tab, the PTY fan-in drain, on receiving `Exit` from tab `(w, 0)`,
closes that tab and — the collection now being empty — closes the window; the
registry ends empty and the next main-loop iteration's early-exit check
signals `ControlFlow::Exit`. -/
theorem C6_exit_closes_tab_then_window (t : WindowContextTracker)
    (ctx : WindowContext) (w : Nat)
    (hmap : t.map = [ctx]) (hw : ctx.window_id = w)
    (htabs : ctx.term_tab_collection.tab_collection.length = 1)
    (hact : ctx.term_tab_collection.active_tab = 0) :
    ∃ t', handle_pty_events t
        (some { wrapped_event := .Exit, window_id := some w, tab_id := 0 }) =
        some (t', none) ∧
      t'.map = [] ∧ main_loop_signals_exit t' = true := by
  obtain ⟨tact, tmap⟩ := t
  obtain ⟨cw, ctabs⟩ := ctx
  obtain ⟨ca, cl⟩ := ctabs
  simp only at hmap hw htabs hact
  subst hmap hw hact
  obtain ⟨tab, rfl⟩ := List.length_eq_one.mp htabs
  refine ⟨⟨if tact = some cw then none else tact, []⟩, ?_, rfl, rfl⟩
  unfold handle_pty_events WindowContextTracker.get_context
    TermTabCollection.close_tab TermTabCollection.is_empty
    WindowContextTracker.close_window WindowContextTracker.setContext
    WindowContextTracker.containsKey
  by_cases h : tact = some cw <;>
    simp [h, TermTabCollection.renumberFrom]

/-- C6 witness: the freshly initialized one-window, one-tab registry. -/
theorem C6_exit_closes_tab_then_window_witness :
    (exTracker1.map = [{ window_id := 0, term_tab_collection := exTabs1 }] ∧
      exTabs1.tab_collection.length = 1 ∧ exTabs1.active_tab = 0) ∧
    ∃ t', handle_pty_events exTracker1
        (some { wrapped_event := .Exit, window_id := some 0, tab_id := 0 }) =
        some (t', none) ∧
      t'.map = [] ∧ main_loop_signals_exit t' = true :=
  ⟨⟨rfl, by decide, by decide⟩,
    C6_exit_closes_tab_then_window exTracker1
      { window_id := 0, term_tab_collection := exTabs1 } 0 rfl rfl
      (by decide) (by decide)⟩

/-- C7 (counterexample).  With 2 tabs, `tab_bar_height = 24`, `dpr = 2` and
`size_info.width = 800` — the code's only window width — the hit test at
`(401, 10)` returns `Some 2` (`⌊401 · 2 · 2 / 800⌋ = 2`), not `Some 1` as the
claim states, and the result escapes the claimed range `[0, 2)`. -/
theorem C7_hit_test_counterexample :
    exProcessor2.get_tab_from_mouse_position exTabCfg exSize800 (401, 10) =
      some 2 := by
  unfold exProcessor2 TabBarProcessor.new exBarState2 exTabCfg exSize800
    TabBarProcessor.get_tab_from_mouse_position TabBarState.tab_count
  norm_num
  rfl

/-- C7 (amended).  With no drag in progress and `N > 1` snapshot tabs, the
hit test inside the strip returns
`floor(x * N * dpr / size_info.width)` where `size_info.width` is the
*physical* width; the result lies in `[0, N)` whenever `0 ≤ x` and
`x * dpr < size_info.width` (i.e. `x` inside the window in logical
coordinates).  The S5 figures hold with physical width 1600 — logical window
width 800 at `dpr = 2`: `(401, 10) ↦ Some 1`, `(399, 10) ↦ Some 0`,
`(401, 60) ↦ None`. -/
theorem C7_hit_test_amended (p : TabBarProcessor) (config : TabBarConfig)
    (si : SizeInfo) (x y : ℚ) (N : Nat)
    (hdrag : p.tab_bar_state.dragging_info = none)
    (hN : p.tab_bar_state.tabs.length = N) (h1 : 1 < N)
    (hy : y * si.dpr < config.tab_bar_height * si.dpr)
    (hx0 : 0 ≤ x) (hxw : x * si.dpr < si.width) (hw : 0 < si.width) :
    (p.get_tab_from_mouse_position config si (x, y) =
        some (Int.toNat ⌊x * (N : ℚ) * si.dpr / si.width⌋) ∧
      Int.toNat ⌊x * (N : ℚ) * si.dpr / si.width⌋ < N) ∧
    exProcessor2.get_tab_from_mouse_position exTabCfg exSize1600 (401, 10) =
      some 1 ∧
    exProcessor2.get_tab_from_mouse_position exTabCfg exSize1600 (399, 10) =
      some 0 ∧
    exProcessor2.get_tab_from_mouse_position exTabCfg exSize1600 (401, 60) =
      none := by
  refine ⟨⟨?_, ?_⟩, ?_, ?_, ?_⟩
  case refine_3 =>
    unfold exProcessor2 TabBarProcessor.new exBarState2 exTabCfg exSize1600
      exSize800 TabBarProcessor.get_tab_from_mouse_position TabBarState.tab_count
    norm_num
  case refine_4 =>
    unfold exProcessor2 TabBarProcessor.new exBarState2 exTabCfg exSize1600
      exSize800 TabBarProcessor.get_tab_from_mouse_position TabBarState.tab_count
    norm_num
  case refine_5 =>
    unfold exProcessor2 TabBarProcessor.new exBarState2 exTabCfg exSize1600
      exSize800 TabBarProcessor.get_tab_from_mouse_position TabBarState.tab_count
    norm_num
  · simp only [TabBarProcessor.get_tab_from_mouse_position, hdrag,
      TabBarState.tab_count, hN, Bool.false_eq_true, if_false]
    rw [if_neg (by omega), if_pos hy]
  · have hq : x * (N : ℚ) * si.dpr / si.width < (N : ℚ) := by
      rw [div_lt_iff₀ hw]
      have hN0 : (0 : ℚ) < (N : ℚ) := by
        exact_mod_cast (by omega : 0 < N)
      calc x * (N : ℚ) * si.dpr = (x * si.dpr) * (N : ℚ) := by ring
        _ < si.width * (N : ℚ) := mul_lt_mul_of_pos_right hxw hN0
        _ = (N : ℚ) * si.width := by ring
    have hfl : ⌊x * (N : ℚ) * si.dpr / si.width⌋ < (N : ℤ) :=
      Int.floor_lt.mpr (by exact_mod_cast hq)
    omega

/-- C7 witness. -/
theorem C7_hit_test_amended_witness :
    (exProcessor2.tab_bar_state.dragging_info = none ∧
      exProcessor2.tab_bar_state.tabs.length = 2 ∧
      (10 : ℚ) * exSize1600.dpr < exTabCfg.tab_bar_height * exSize1600.dpr ∧
      (0 : ℚ) ≤ 401 ∧ (401 : ℚ) * exSize1600.dpr < exSize1600.width ∧
      (0 : ℚ) < exSize1600.width) ∧
    (exProcessor2.get_tab_from_mouse_position exTabCfg exSize1600 (401, 10) =
        some (Int.toNat ⌊(401 : ℚ) * ((2 : Nat) : ℚ) * exSize1600.dpr / exSize1600.width⌋) ∧
      Int.toNat ⌊(401 : ℚ) * ((2 : Nat) : ℚ) * exSize1600.dpr / exSize1600.width⌋ < 2) ∧
    exProcessor2.get_tab_from_mouse_position exTabCfg exSize1600 (401, 10) =
      some 1 ∧
    exProcessor2.get_tab_from_mouse_position exTabCfg exSize1600 (399, 10) =
      some 0 ∧
    exProcessor2.get_tab_from_mouse_position exTabCfg exSize1600 (401, 60) =
      none :=
  ⟨⟨rfl, rfl,
    by norm_num [exSize1600, exSize800, exTabCfg],
    by norm_num,
    by norm_num [exSize1600, exSize800],
    by norm_num [exSize1600, exSize800]⟩,
    C7_hit_test_amended exProcessor2 exTabCfg exSize1600 401 10 2
      rfl rfl (by norm_num)
      (by norm_num [exSize1600, exSize800, exTabCfg])
      (by norm_num)
      (by norm_num [exSize1600, exSize800])
      (by norm_num [exSize1600, exSize800])⟩

theorem rustRem_eq_of_nonneg (x c : ℚ) (h : 0 ≤ x / c) :
    rustRem x c = x - c * (⌊x / c⌋ : ℚ) := by
  unfold rustRem
  rw [truncQ_eq_floor_of_nonneg h]

theorem rustRem_nonneg (x c : ℚ) (hx : 0 ≤ x) (hc : 0 < c) :
    0 ≤ rustRem x c := by
  rw [rustRem_eq_of_nonneg x c (div_nonneg hx hc.le)]
  have h1 : (⌊x / c⌋ : ℚ) ≤ x / c := Int.floor_le _
  have h2 : c * (x / c) = x := by field_simp
  nlinarith

theorem rustRem_le_sub_cell (x c : ℚ) (hx : c ≤ x) (hc : 0 < c) :
    c ≤ x - rustRem x c := by
  rw [rustRem_eq_of_nonneg x c (div_nonneg (by linarith) hc.le)]
  have h1 : (1 : ℚ) ≤ x / c := (one_le_div hc).mpr hx
  have h2 : (1 : ℤ) ≤ ⌊x / c⌋ := Int.le_floor.mpr (by exact_mod_cast h1)
  have h3 : (1 : ℚ) ≤ (⌊x / c⌋ : ℚ) := by exact_mod_cast h2
  nlinarith

/-- The dynamically padded, floored padding still leaves room for one cell:
`cell + 2 * ⌊dynamic_padding p v cell⌋ ≤ v` whenever `cell + 2p ≤ v`. -/
theorem dynamic_padding_floor_bound (p cell v : ℚ) (hp : 0 ≤ p)
    (hc : 0 < cell) (hv : cell + 2 * p ≤ v) :
    cell + 2 * (⌊dynamic_padding p v cell⌋ : ℚ) ≤ v := by
  unfold dynamic_padding
  have hx : cell ≤ v - 2 * p := by linarith
  have hr := rustRem_le_sub_cell (v - 2 * p) cell hx hc
  have hfl : (⌊p + rustRem (v - 2 * p) cell / 2⌋ : ℚ) ≤
      p + rustRem (v - 2 * p) cell / 2 := Int.floor_le _
  linarith

theorem static_padding_floor_bound (p cell v : ℚ) (hv : cell + 2 * p ≤ v) :
    cell + 2 * (⌊p⌋ : ℚ) ≤ v := by
  have := Int.floor_le p
  linarith

/-- C8.  On a display update carrying new dimensions, `Display::handle_update`:
(i) when dynamic padding is enabled, stores per axis the floor of
`padding + ((viewport - 2*padding) mod cell) / 2` computed on the clamped
viewport; (ii) hands both the PTY resizer and the terminal a size whose
height is the stored height minus `message_lines * cell_height`; and (iii)
keeps the stored size at least one cell plus two stored paddings per axis. -/
theorem C8_handle_update_resize (si si1 pty : SizeInfo) (config : DisplayConfig)
    (lines : Nat) (w h : ℚ) (font : Option (ℚ × ℚ))
    (heq : handle_update si config (some lines)
      { dimensions := some (w, h), font := font } = (si1, pty))
    (hcw : 0 < si1.cell_width) (hch : 0 < si1.cell_height)
    (hpx : 0 ≤ config.padding_x) (hpy : 0 ≤ config.padding_y)
    (hdpr : 0 < si.dpr) :
    (config.dynamic_padding = true →
      si1.padding_x =
        (⌊dynamic_padding (config.padding_x * si.dpr) si1.width si1.cell_width⌋ : ℚ) ∧
      si1.padding_y =
        (⌊dynamic_padding (config.padding_y * si.dpr) si1.height si1.cell_height⌋ : ℚ)) ∧
    pty = { si1 with height := si1.height - si1.cell_height * (lines : ℚ) } ∧
    si1.cell_width + 2 * si1.padding_x ≤ si1.width ∧
    si1.cell_height + 2 * si1.padding_y ≤ si1.height := by
  have hpxd : 0 ≤ config.padding_x * si.dpr := mul_nonneg hpx hdpr.le
  have hpyd : 0 ≤ config.padding_y * si.dpr := mul_nonneg hpy hdpr.le
  cases font with
  | none =>
      simp only [handle_update] at heq
      obtain ⟨rfl, rfl⟩ := Prod.mk.injEq .. |>.mp heq
      refine ⟨fun hdyn => by simp [hdyn], rfl, ?_, ?_⟩
      · by_cases hdyn : config.dynamic_padding = true
        · simp only [if_pos hdyn]
          exact dynamic_padding_floor_bound _ _ _ hpxd hcw (le_max_right _ _)
        · simp only [if_neg hdyn]
          exact static_padding_floor_bound _ _ _ (le_max_right _ _)
      · by_cases hdyn : config.dynamic_padding = true
        · simp only [if_pos hdyn]
          exact dynamic_padding_floor_bound _ _ _ hpyd hch (le_max_right _ _)
        · simp only [if_neg hdyn]
          exact static_padding_floor_bound _ _ _ (le_max_right _ _)
  | some fcell =>
      obtain ⟨fcw, fch⟩ := fcell
      simp only [handle_update] at heq
      obtain ⟨rfl, rfl⟩ := Prod.mk.injEq .. |>.mp heq
      refine ⟨fun hdyn => by simp [hdyn], rfl, ?_, ?_⟩
      · by_cases hdyn : config.dynamic_padding = true
        · simp only [if_pos hdyn]
          exact dynamic_padding_floor_bound _ _ _ hpxd hcw (le_max_right _ _)
        · simp only [if_neg hdyn]
          exact static_padding_floor_bound _ _ _ (le_max_right _ _)
      · by_cases hdyn : config.dynamic_padding = true
        · simp only [if_pos hdyn]
          exact dynamic_padding_floor_bound _ _ _ hpyd hch (le_max_right _ _)
        · simp only [if_neg hdyn]
          exact static_padding_floor_bound _ _ _ (le_max_right _ _)

/-- C8 witness: an 800×600 viewport, 8×16 cells, padding 2 at dpr 1, one
message-bar line, dynamic padding off. -/
theorem C8_handle_update_resize_witness :
    (handle_update exSize800 { padding_x := 2, padding_y := 2, dynamic_padding := false }
        (some 1) { dimensions := some (802, 601), font := none }).1.cell_width = 8 ∧
    ∃ si1 pty, handle_update exSize800
        { padding_x := 2, padding_y := 2, dynamic_padding := false }
        (some 1) { dimensions := some (802, 601), font := none } = (si1, pty) ∧
      (pty = { si1 with height := si1.height - si1.cell_height * ((1 : Nat) : ℚ) } ∧
        si1.cell_width + 2 * si1.padding_x ≤ si1.width ∧
        si1.cell_height + 2 * si1.padding_y ≤ si1.height) := by
  constructor
  · norm_num [handle_update, exSize800]
  · refine ⟨_, _, rfl, ?_⟩
    have := C8_handle_update_resize exSize800 _ _
      { padding_x := 2, padding_y := 2, dynamic_padding := false }
      1 802 601 none rfl
      (by norm_num [handle_update, exSize800])
      (by norm_num [handle_update, exSize800])
      (by norm_num) (by norm_num) (by norm_num [exSize800])
    exact ⟨this.2.1, this.2.2.1, this.2.2.2⟩

/-- C9.  `ellipsis_tab_title` returns a title unchanged whenever it fits —
the ellipsized width including the close-button reservation
(`3·cell + len·cell + 4·(CLOSE_ICON_WIDTH + CLOSE_ICON_PADDING)·dpr`) does
not exceed the tab width — hence is idempotent on fitting titles; and any
returned title other than the input arises only when the title did not fit
and carries a trailing `"..."`. -/
theorem C9_ellipsis_fitting (title : List Char) (cell_width dpr width : ℚ) :
    ((3 : ℚ) * cell_width + (title.length : ℚ) * cell_width +
        4 * (CLOSE_ICON_WIDTH + CLOSE_ICON_PADDING) * dpr ≤ width →
      ellipsis_tab_title title cell_width dpr width = some title ∧
      (ellipsis_tab_title title cell_width dpr width).bind
        (fun t => ellipsis_tab_title t cell_width dpr width) = some title) ∧
    (∀ r, ellipsis_tab_title title cell_width dpr width = some r → r ≠ title →
      width < (3 : ℚ) * cell_width + (title.length : ℚ) * cell_width +
        4 * (CLOSE_ICON_WIDTH + CLOSE_ICON_PADDING) * dpr ∧
      ['.', '.', '.'] <:+ r) := by
  have hlen : ((['.', '.', '.'] : List Char).length : ℚ) = (3 : ℚ) := by
    norm_num
  constructor
  · intro hfit
    have hcond : ¬(((['.', '.', '.'] : List Char).length : ℚ) * cell_width +
        (title.length : ℚ) * cell_width +
        4 * (CLOSE_ICON_WIDTH + CLOSE_ICON_PADDING) * dpr - width > 0) := by
      rw [hlen]
      linarith
    have h1 : ellipsis_tab_title title cell_width dpr width = some title := by
      unfold ellipsis_tab_title
      rw [if_neg hcond]
    exact ⟨h1, by rw [h1]; exact h1⟩
  · intro r hr hne
    simp only [ellipsis_tab_title] at hr
    split at hr
    · split at hr
      · exact Option.noConfusion hr
      · rw [Option.some_inj] at hr
        subst hr
        constructor
        · rename_i hd _
          rw [hlen] at hd
          linarith
        · exact ⟨title.take (title.length - Int.toNat
            ⌊(((['.', '.', '.'] : List Char).length : ℚ) * cell_width +
              (title.length : ℚ) * cell_width +
              4 * (CLOSE_ICON_WIDTH + CLOSE_ICON_PADDING) * dpr - width) /
                cell_width⌋), rfl⟩
    · rw [Option.some_inj] at hr
      exact absurd hr.symm hne

/-- C9 witness: the one-character title `"a"` in a 100-pixel tab at
`cell_width = 1`, `dpr = 1` fits and is returned unchanged (twice). -/
theorem C9_ellipsis_fitting_witness :
    ((3 : ℚ) * 1 + ((['a'] : List Char).length : ℚ) * 1 +
        4 * (CLOSE_ICON_WIDTH + CLOSE_ICON_PADDING) * 1 ≤ 100) ∧
    (ellipsis_tab_title ['a'] 1 1 100 = some ['a'] ∧
      (ellipsis_tab_title ['a'] 1 1 100).bind
        (fun t => ellipsis_tab_title t 1 1 100) = some ['a']) :=
  ⟨by norm_num [CLOSE_ICON_WIDTH, CLOSE_ICON_PADDING],
    (C9_ellipsis_fitting ['a'] 1 1 100).1
      (by norm_num [CLOSE_ICON_WIDTH, CLOSE_ICON_PADDING])⟩

theorem update_error_eq (st : TabBarState) (si : SizeInfo) (config : TabBarConfig)
    (tc : TermTabCollection) (e : TabBarPanic)
    (h : st.update si config tc = .error e) : e = .tabCountUnderflow := by
  simp only [TabBarState.update] at h
  split at h
  · exact ((Except.error.injEq ..).mp h).symm
  · exact Except.noConfusion h

theorem update_dragging_info_error_eq (st : TabBarState) (config : TabBarConfig)
    (si : SizeInfo) (tab_id : Nat) (dx dy : ℚ) (e : TabBarPanic)
    (h : st.update_dragging_info config si tab_id dx dy = .error e) :
    e = .tabStateIndexOutOfRange := by
  simp only [TabBarState.update_dragging_info] at h
  cases hdi : st.dragging_info with
  | some di =>
      simp only [hdi] at h
      exact Except.noConfusion h
  | none =>
      simp only [hdi] at h
      cases hts : st.tabs[tab_id]? with
      | some ts =>
          simp only [hts] at h
          exact Except.noConfusion h
      | none =>
          simp only [hts] at h
          exact ((Except.error.injEq ..).mp h).symm

theorem is_hover_close_button_error_eq (p : TabBarProcessor) (si : SizeInfo)
    (e : TabBarPanic) (h : p.is_hover_close_button si = .error e) :
    e = .tabStateIndexOutOfRange := by
  simp only [TabBarProcessor.is_hover_close_button] at h
  cases hh : p.tab_bar_state.hovered_tab with
  | none =>
      simp only [hh] at h
      exact Except.noConfusion h
  | some hovered =>
      simp only [hh] at h
      cases hc : p.current_mouse_position with
      | none =>
          simp only [hc] at h
          exact Except.noConfusion h
      | some mp =>
          simp only [hc] at h
          cases hts : p.tab_bar_state.tabs[hovered]? with
          | none =>
              simp only [hts] at h
              exact ((Except.error.injEq ..).mp h).symm
          | some ts =>
              simp only [hts] at h
              exact Except.noConfusion h

theorem handle_mouse_down_error_eq (p : TabBarProcessor) (w : Nat)
    (mp : ℚ × ℚ) (config : TabBarConfig) (si : SizeInfo) (e : TabBarPanic)
    (h : p.handle_mouse_down w mp config si = .error e) :
    e = .tabStateIndexOutOfRange := by
  simp only [TabBarProcessor.handle_mouse_down] at h
  cases hht : p.get_tab_from_mouse_position config si mp with
  | none =>
      simp only [hht] at h
      exact Except.noConfusion h
  | some pressed =>
      simp only [hht] at h
      cases hcb : p.is_hover_close_button si with
      | error e' =>
          simp only [hcb] at h
          rw [(Except.error.injEq ..).mp h] at hcb
          exact is_hover_close_button_error_eq p si e hcb
      | ok b =>
          cases b with
          | true =>
              simp only [hcb] at h
              exact Except.noConfusion h
          | false =>
              simp only [hcb] at h
              exact Except.noConfusion h

theorem handle_tab_drag_error_ne_press (p : TabBarProcessor)
    (config : TabBarConfig) (si : SizeInfo) (e : TabBarPanic)
    (h : p.handle_tab_drag config si = .error e) :
    e ≠ .pressUnwrapCurrentPos := by
  simp only [TabBarProcessor.handle_tab_drag] at h
  cases hmd : p.mouse_down_position with
  | none =>
      simp only [hmd] at h
      rw [← (Except.error.injEq ..).mp h]
      simp
  | some mdp =>
      simp only [hmd] at h
      cases hht : p.get_tab_from_mouse_position config si mdp with
      | none =>
          simp only [hht] at h
          exact Except.noConfusion h
      | some tab_id =>
          simp only [hht] at h
          cases hcm : p.current_mouse_position with
          | none =>
              simp only [hcm] at h
              rw [← (Except.error.injEq ..).mp h]
              simp
          | some cmp =>
              simp only [hcm] at h
              cases hud : p.tab_bar_state.update_dragging_info config si tab_id
                  ((cmp.1 - mdp.1) * si.dpr) ((cmp.2 - mdp.2) * si.dpr) with
              | error e' =>
                  simp only [hud] at h
                  rw [(Except.error.injEq ..).mp h] at hud
                  rw [update_dragging_info_error_eq _ _ _ _ _ _ _ hud]
                  simp
              | ok st =>
                  simp only [hud] at h
                  exact Except.noConfusion h

theorem handle_tab_drag_ok_current (p p' : TabBarProcessor)
    (config : TabBarConfig) (si : SizeInfo) (b : Bool)
    (h : p.handle_tab_drag config si = .ok (p', b)) :
    p'.current_mouse_position = p.current_mouse_position := by
  simp only [TabBarProcessor.handle_tab_drag] at h
  cases hmd : p.mouse_down_position with
  | none =>
      simp only [hmd] at h
      exact Except.noConfusion h
  | some mdp =>
      simp only [hmd] at h
      cases hht : p.get_tab_from_mouse_position config si mdp with
      | none =>
          simp only [hht] at h
          injection h with h1
          injection h1 with ha hb
          rw [← ha]
      | some tab_id =>
          simp only [hht] at h
          cases hcm : p.current_mouse_position with
          | none =>
              simp only [hcm] at h
              exact Except.noConfusion h
          | some cmp =>
              simp only [hcm] at h
              cases hud : p.tab_bar_state.update_dragging_info config si tab_id
                  ((cmp.1 - mdp.1) * si.dpr) ((cmp.2 - mdp.2) * si.dpr) with
              | error e' =>
                  simp only [hud] at h
                  exact Except.noConfusion h
              | ok st =>
                  simp only [hud] at h
                  injection h with h1
                  injection h1 with ha hb
                  rw [← ha]

theorem handle_hover_error_ne_press (p : TabBarProcessor)
    (config : TabBarConfig) (si : SizeInfo) (e : TabBarPanic)
    (h : p.handle_hover config si = .error e) :
    e ≠ .pressUnwrapCurrentPos := by
  simp only [TabBarProcessor.handle_hover] at h
  cases hcb : TabBarProcessor.is_hover_close_button
      { p with tab_bar_state :=
        (p.tab_bar_state.update_hovered_tab
          (match p.current_mouse_position with
            | some current => p.get_tab_from_mouse_position config si current
            | none => none)).1 } si with
  | error e' =>
      simp only [hcb] at h
      rw [(Except.error.injEq ..).mp h] at hcb
      rw [is_hover_close_button_error_eq _ _ _ hcb]
      simp
  | ok b =>
      cases b with
      | true =>
          simp only [hcb] at h
          exact Except.noConfusion h
      | false =>
          simp only [hcb] at h
          exact Except.noConfusion h

theorem handle_hover_ok_current (p p' : TabBarProcessor)
    (config : TabBarConfig) (si : SizeInfo) (b : Bool) (icon : Option CursorIcon)
    (h : p.handle_hover config si = .ok (p', b, icon)) :
    p'.current_mouse_position = p.current_mouse_position := by
  simp only [TabBarProcessor.handle_hover] at h
  cases hcb : TabBarProcessor.is_hover_close_button
      { p with tab_bar_state :=
        (p.tab_bar_state.update_hovered_tab
          (match p.current_mouse_position with
            | some current => p.get_tab_from_mouse_position config si current
            | none => none)).1 } si with
  | error e' =>
      simp only [hcb] at h
      exact Except.noConfusion h
  | ok c =>
      cases c with
      | true =>
          simp only [hcb] at h
          injection h with h1
          injection h1 with ha hb
          rw [← ha]
      | false =>
          simp only [hcb] at h
          injection h with h1
          injection h1 with ha hb
          rw [← ha]

theorem handleRedraw_error_ne_press (p : TabBarProcessor)
    (tc : TermTabCollection) (config : TabBarConfig) (si : SizeInfo)
    (e : TabBarPanic) (h : TabBarProcessor.handleRedraw p tc config si = .error e) :
    e ≠ .pressUnwrapCurrentPos := by
  simp only [TabBarProcessor.handleRedraw] at h
  cases hupd : p.tab_bar_state.update si config tc with
  | error e' =>
      simp only [hupd] at h
      injection h with h1
      rw [← h1, update_error_eq _ _ _ _ _ hupd]
      simp
  | ok st =>
      simp only [hupd] at h
      exact Except.noConfusion h

theorem handleRedraw_ok_current (p p' : TabBarProcessor)
    (tc : TermTabCollection) (config : TabBarConfig) (si : SizeInfo)
    (r : Bool × Bool × Bool × Option CursorIcon × List MultiWindowCommand)
    (h : TabBarProcessor.handleRedraw p tc config si = .ok (p', r)) :
    p'.current_mouse_position = p.current_mouse_position := by
  simp only [TabBarProcessor.handleRedraw] at h
  cases hupd : p.tab_bar_state.update si config tc with
  | error e' =>
      simp only [hupd] at h
      exact Except.noConfusion h
  | ok st =>
      simp only [hupd] at h
      injection h with h1
      injection h1 with ha hb
      rw [← ha]

theorem cursorMovedTail_error_ne_press (p : TabBarProcessor)
    (config : TabBarConfig) (si : SizeInfo) (w : Nat) (pos : ℚ × ℚ)
    (e : TabBarPanic) (h : TabBarProcessor.cursorMovedTail p config si w pos = .error e) :
    e ≠ .pressUnwrapCurrentPos := by
  simp only [TabBarProcessor.cursorMovedTail] at h
  by_cases hdown : p.is_mouse_down = true
  · rw [if_pos hdown] at h
    split at h
    · rename_i e1 heq
      injection h with h1
      rw [← h1]
      exact handle_tab_drag_error_ne_press p config si e1 heq
    · rename_i p2 isdr heq
      split at h
      · split at h
        · rename_i e1 hh
          injection h with h1
          rw [← h1]
          exact handle_hover_error_ne_press _ config si e1 hh
        · exact Except.noConfusion h
      · exact Except.noConfusion h
  · rw [if_neg hdown] at h
    simp only [Bool.not_false] at h
    cases hh : TabBarProcessor.handle_hover
        { tab_bar_state := p.tab_bar_state, is_mouse_down := p.is_mouse_down,
          mouse_down_position := p.mouse_down_position,
          current_mouse_position := some pos,
          mouse_down_window := p.mouse_down_window,
          current_window := some w } config si with
    | error e1 =>
        simp only [hh] at h
        injection h with h1
        rw [← h1]
        exact handle_hover_error_ne_press _ config si e1 hh
    | ok tr =>
        obtain ⟨p4, did, icon⟩ := tr
        simp only [hh] at h
        exact Except.noConfusion h

theorem cursorMovedTail_ok_current (p p' : TabBarProcessor)
    (config : TabBarConfig) (si : SizeInfo) (w : Nat) (pos : ℚ × ℚ)
    (r : Bool × Bool × Bool × Option CursorIcon × List MultiWindowCommand)
    (h : TabBarProcessor.cursorMovedTail p config si w pos = .ok (p', r)) :
    p'.current_mouse_position = some pos := by
  simp only [TabBarProcessor.cursorMovedTail] at h
  by_cases hdown : p.is_mouse_down = true
  · rw [if_pos hdown] at h
    split at h
    · exact Except.noConfusion h
    · rename_i p2 isdr heq
      split at h
      · split at h
        · exact Except.noConfusion h
        · rename_i p4 did icon hh
          injection h with h1
          injection h1 with ha hb
          rw [← ha]
          rw [handle_hover_ok_current _ _ _ _ _ _ hh]
      · injection h with h1
        injection h1 with ha hb
        rw [← ha]
  · rw [if_neg hdown] at h
    simp only [Bool.not_false] at h
    cases hh : TabBarProcessor.handle_hover
        { tab_bar_state := p.tab_bar_state, is_mouse_down := p.is_mouse_down,
          mouse_down_position := p.mouse_down_position,
          current_mouse_position := some pos,
          mouse_down_window := p.mouse_down_window,
          current_window := some w } config si with
    | error e1 =>
        simp only [hh] at h
        exact Except.noConfusion h
    | ok tr =>
        obtain ⟨p4, did, icon⟩ := tr
        simp only [hh] at h
        injection h with h1
        injection h1 with ha hb
        rw [← ha]
        rw [handle_hover_ok_current _ _ _ _ _ _ hh]

theorem mouseInputPress_error_press (p : TabBarProcessor)
    (config : TabBarConfig) (si : SizeInfo) (w : Nat) (pressed left : Bool)
    (h : TabBarProcessor.mouseInputPress p config si w pressed left = .error .pressUnwrapCurrentPos) :
    p.current_mouse_position = none ∧ pressed = true ∧ left = true := by
  simp only [TabBarProcessor.mouseInputPress] at h
  by_cases hcond : ((pressed && left) && !p.is_mouse_down) = true
  · rw [if_pos hcond] at h
    split at h
    · rename_i heq
      rw [Bool.and_eq_true, Bool.and_eq_true] at hcond
      exact ⟨heq, hcond.1.1, hcond.1.2⟩
    · rename_i mp heq
      split at h
      · rename_i e' hmd
        injection h with h1
        exact absurd h1 (by
          rw [handle_mouse_down_error_eq _ _ _ _ _ _ hmd]
          simp)
      · exact Except.noConfusion h
  · rw [if_neg hcond] at h
    exact Except.noConfusion h

theorem mouseInputPress_ok_current (p p1 : TabBarProcessor)
    (config : TabBarConfig) (si : SizeInfo) (w : Nat) (pressed left : Bool)
    (cmds : List MultiWindowCommand)
    (h : TabBarProcessor.mouseInputPress p config si w pressed left = .ok (p1, cmds)) :
    p1.current_mouse_position = p.current_mouse_position ∧
    p1.is_mouse_down = p.is_mouse_down := by
  simp only [TabBarProcessor.mouseInputPress] at h
  by_cases hcond : ((pressed && left) && !p.is_mouse_down) = true
  · rw [if_pos hcond] at h
    split at h
    · exact Except.noConfusion h
    · rename_i mp heq
      split at h
      · exact Except.noConfusion h
      · injection h with h1
        injection h1 with ha hb
        rw [← ha]
        exact ⟨rfl, rfl⟩
  · rw [if_neg hcond] at h
    injection h with h1
    injection h1 with ha hb
    rw [← ha]
    exact ⟨rfl, rfl⟩

theorem mouseInputTail_error_ne_press (p : TabBarProcessor)
    (config : TabBarConfig) (si : SizeInfo) (pressed left : Bool)
    (cmds : List MultiWindowCommand) (e : TabBarPanic)
    (h : TabBarProcessor.mouseInputTail p config si pressed left cmds = .error e) :
    e ≠ .pressUnwrapCurrentPos := by
  simp only [TabBarProcessor.mouseInputTail] at h
  by_cases hrel : (p.is_mouse_down && !pressed) = true
  · rw [if_pos hrel] at h
    cases hh : TabBarProcessor.handle_hover
        { p.handle_mouse_up.1 with is_mouse_down := pressed && left }
        config si with
    | error e' =>
        simp only [hh] at h
        injection h with h1
        rw [← h1]
        exact handle_hover_error_ne_press _ config si e' hh
    | ok tr =>
        obtain ⟨p4, did, icon⟩ := tr
        simp only [hh] at h
        exact Except.noConfusion h
  · rw [if_neg hrel] at h
    cases hh : TabBarProcessor.handle_hover
        { p with is_mouse_down := pressed && left } config si with
    | error e' =>
        simp only [hh] at h
        injection h with h1
        rw [← h1]
        exact handle_hover_error_ne_press _ config si e' hh
    | ok tr =>
        obtain ⟨p4, did, icon⟩ := tr
        simp only [hh] at h
        exact Except.noConfusion h

theorem mouseInputTail_ok_current (p p' : TabBarProcessor)
    (config : TabBarConfig) (si : SizeInfo) (pressed left : Bool)
    (cmds : List MultiWindowCommand)
    (r : Bool × Bool × Bool × Option CursorIcon × List MultiWindowCommand)
    (h : TabBarProcessor.mouseInputTail p config si pressed left cmds = .ok (p', r)) :
    p'.current_mouse_position = p.current_mouse_position := by
  simp only [TabBarProcessor.mouseInputTail] at h
  by_cases hrel : (p.is_mouse_down && !pressed) = true
  · rw [if_pos hrel] at h
    cases hh : TabBarProcessor.handle_hover
        { p.handle_mouse_up.1 with is_mouse_down := pressed && left }
        config si with
    | error e' =>
        simp only [hh] at h
        exact Except.noConfusion h
    | ok tr =>
        obtain ⟨p4, did, icon⟩ := tr
        simp only [hh] at h
        injection h with h1
        injection h1 with ha hb
        rw [← ha]
        rw [handle_hover_ok_current _ _ _ _ _ _ hh]
        rfl
  · rw [if_neg hrel] at h
    cases hh : TabBarProcessor.handle_hover
        { p with is_mouse_down := pressed && left } config si with
    | error e' =>
        simp only [hh] at h
        exact Except.noConfusion h
    | ok tr =>
        obtain ⟨p4, did, icon⟩ := tr
        simp only [hh] at h
        injection h with h1
        injection h1 with ha hb
        rw [← ha]
        rw [handle_hover_ok_current _ _ _ _ _ _ hh]

theorem handle_event_press_safe (p : TabBarProcessor) (tc : TermTabCollection)
    (config : TabBarConfig) (si : SizeInfo) (ev : GlutinEvent) :
    (p.handle_event tc config si ev = .error .pressUnwrapCurrentPos →
      p.current_mouse_position = none ∧ ∃ w, ev = .MouseInput w true true) ∧
    (∀ p' res, p.handle_event tc config si ev = .ok (p', res) →
      ((∀ w pos, ev ≠ .CursorMoved w pos) →
        p'.current_mouse_position = p.current_mouse_position) ∧
      (∀ w pos, ev = .CursorMoved w pos →
        p'.current_mouse_position = some pos)) := by
  cases ev with
  | Other =>
      constructor
      · intro h
        simp only [TabBarProcessor.handle_event] at h
        exact Except.noConfusion h
      · intro p' res h
        simp only [TabBarProcessor.handle_event] at h
        injection h with h1
        injection h1 with ha hb
        subst ha
        exact ⟨fun _ => rfl, fun w pos hcon => GlutinEvent.noConfusion hcon⟩
  | RedrawRequested w =>
      constructor
      · intro h
        simp only [TabBarProcessor.handle_event] at h
        cases hr : TabBarProcessor.handleRedraw p tc config si with
        | error e =>
            simp only [hr] at h
            injection h with h1
            exact absurd h1 (handleRedraw_error_ne_press p tc config si e hr)
        | ok pr =>
            obtain ⟨p2, r2⟩ := pr
            simp only [hr] at h
            exact Except.noConfusion h
      · intro p' res h
        simp only [TabBarProcessor.handle_event] at h
        cases hr : TabBarProcessor.handleRedraw p tc config si with
        | error e =>
            simp only [hr] at h
            exact Except.noConfusion h
        | ok pr =>
            obtain ⟨p2, r2, r3, r4, r5, r6⟩ := pr
            simp only [hr] at h
            injection h with h1
            injection h1 with ha hb
            subst ha
            refine ⟨fun _ => ?_, fun w' pos hcon => GlutinEvent.noConfusion hcon⟩
            exact handleRedraw_ok_current p p2 tc config si (r2, r3, r4, r5, r6) hr
  | CursorMoved w pos =>
      constructor
      · intro h
        simp only [TabBarProcessor.handle_event, TabBarProcessor.handleCursorMoved] at h
        cases hr : TabBarProcessor.cursorMovedTail
            (if (p.is_mouse_down && p.mouse_down_position.isNone) = true
              then { tab_bar_state := p.tab_bar_state,
                     is_mouse_down := p.is_mouse_down,
                     mouse_down_position := some pos,
                     current_mouse_position := p.current_mouse_position,
                     mouse_down_window := p.mouse_down_window,
                     current_window := p.current_window } else p)
            config si w pos with
        | error e =>
            simp only [hr] at h
            injection h with h1
            exact absurd h1 (cursorMovedTail_error_ne_press _ config si w pos e hr)
        | ok pr =>
            obtain ⟨p2, r2⟩ := pr
            simp only [hr] at h
            exact Except.noConfusion h
      · intro p' res h
        simp only [TabBarProcessor.handle_event, TabBarProcessor.handleCursorMoved] at h
        cases hr : TabBarProcessor.cursorMovedTail
            (if (p.is_mouse_down && p.mouse_down_position.isNone) = true
              then { tab_bar_state := p.tab_bar_state,
                     is_mouse_down := p.is_mouse_down,
                     mouse_down_position := some pos,
                     current_mouse_position := p.current_mouse_position,
                     mouse_down_window := p.mouse_down_window,
                     current_window := p.current_window } else p)
            config si w pos with
        | error e =>
            simp only [hr] at h
            exact Except.noConfusion h
        | ok pr =>
            obtain ⟨p2, r2, r3, r4, r5, r6⟩ := pr
            simp only [hr] at h
            injection h with h1
            injection h1 with ha hb
            subst ha
            refine ⟨fun hne => absurd rfl (hne w pos), fun w' pos' heq => ?_⟩
            injection heq with hw hpos
            subst hpos
            exact cursorMovedTail_ok_current _ p2 config si w pos
              (r2, r3, r4, r5, r6) hr
  | MouseInput w pressed left =>
      constructor
      · intro h
        simp only [TabBarProcessor.handle_event, TabBarProcessor.handleMouseInput] at h
        cases hpr : TabBarProcessor.mouseInputPress p config si w pressed left with
        | error e =>
            simp only [hpr] at h
            injection h with h1
            subst h1
            obtain ⟨hc, hp, hl⟩ := mouseInputPress_error_press p config si w
              pressed left hpr
            subst hp
            subst hl
            exact ⟨hc, w, rfl⟩
        | ok pr =>
            obtain ⟨p1, cmds⟩ := pr
            simp only [hpr] at h
            cases ht : TabBarProcessor.mouseInputTail p1 config si pressed left cmds with
            | error e =>
                simp only [ht] at h
                injection h with h1
                exact absurd h1 (mouseInputTail_error_ne_press p1 config si
                  pressed left cmds e ht)
            | ok pr2 =>
                obtain ⟨p2, r2⟩ := pr2
                simp only [ht] at h
                exact Except.noConfusion h
      · intro p' res h
        simp only [TabBarProcessor.handle_event, TabBarProcessor.handleMouseInput] at h
        cases hpr : TabBarProcessor.mouseInputPress p config si w pressed left with
        | error e =>
            simp only [hpr] at h
            exact Except.noConfusion h
        | ok pr =>
            obtain ⟨p1, cmds⟩ := pr
            simp only [hpr] at h
            cases ht : TabBarProcessor.mouseInputTail p1 config si pressed left cmds with
            | error e =>
                simp only [ht] at h
                exact Except.noConfusion h
            | ok pr2 =>
                obtain ⟨p2, r2, r3, r4, r5, r6⟩ := pr2
                simp only [ht] at h
                injection h with h1
                injection h1 with ha hb
                subst ha
                refine ⟨fun _ => ?_, fun w' pos' hcon => GlutinEvent.noConfusion hcon⟩
                rw [mouseInputTail_ok_current p1 p2 config si pressed left cmds
                  (r2, r3, r4, r5, r6) ht]
                exact (mouseInputPress_ok_current p p1 config si w pressed left
                  cmds hpr).1

/-- C1 witness: activate the known window 0, then close it. -/
theorem C1_registry_invariant_amended_witness :
    (registry_invariant exTracker1 = true ∧
      activateTargetsKnown exTracker1 [.ActivateWindow 0, .CloseWindow 0] = true ∧
      runCommands exTracker1 [.ActivateWindow 0, .CloseWindow 0] =
        some { active_window_id := none, map := [] }) ∧
    registry_invariant { active_window_id := none, map := [] } = true ∧
    (∀ w, exTracker1.active_window_id = some w →
      (exTracker1.close_window w).active_window_id = none) :=
  ⟨⟨by decide, by decide, by decide⟩,
    C1_registry_invariant_amended exTracker1
      { active_window_id := none, map := [] }
      [.ActivateWindow 0, .CloseWindow 0] (by decide) (by decide) (by decide)⟩

theorem exC10_redraw :
    (TabBarProcessor.new TabBarState.new).handle_event exTabs2 exTabCfg
      exSize800 (.RedrawRequested 0) =
    .ok (TabBarProcessor.new exC10State,
      { need_redraw := false, skip_processor_run := false,
        cursor_icon := none, commands := [] }) := by
  norm_num [TabBarProcessor.handle_event, TabBarProcessor.handleRedraw,
    TabBarState.update, TabBarState.updateStep, TabBarState.tab_bar_height,
    TabBarState.new, TabBarProcessor.new, TermTabCollection.tab_count,
    TermTabCollection.active_tab?, exTabs2, exTabCfg, exSize800, exC10State,
    exC10TabA, exC10TabB, List.range_succ, List.foldl_append,
    TabBarState.tab_count]

theorem exC10_hover :
    (TabBarProcessor.new exC10State).handle_event exTabs2 exTabCfg exSize800
      (.CursorMoved 0 (401, 0)) = .error .tabStateIndexOutOfRange := by
  norm_num [TabBarProcessor.handle_event, TabBarProcessor.handleCursorMoved,
    TabBarProcessor.cursorMovedTail, TabBarProcessor.handle_tab_drag,
    TabBarProcessor.handle_hover, TabBarState.update_hovered_tab,
    TabBarProcessor.is_hover_close_button,
    TabBarProcessor.get_tab_from_mouse_position, TabBarState.tab_count,
    TabBarProcessor.new, exC10State, exC10TabA, exC10TabB, exTabCfg, exSize800,
    Int.toNat_ofNat, List.getElem?_cons_succ, List.getElem?_cons_zero,
    List.getElem?_nil]
  rfl

/-- C10 counterexample.  The precondition of the claim is met — a
`CursorMoved` is delivered before the first left press (indeed no press
occurs at all) — yet `handle_event` still panics: after a redraw snapshots
two tabs, a cursor movement to `x = 401` inside the bar strip hit-tests to
tab index 2 (the hit formula has no upper clamp), `update_hovered_tab`
stores that index, and `is_hover_close_button` indexes the two-entry
snapshot out of range. -/
theorem C10_press_unwrap_counterexample :
    cursorMovedBeforeFirstPress exC10Events = true ∧
    runTabBarEvents (TabBarProcessor.new TabBarState.new) exC10Events =
      Except.error TabBarPanic.tabStateIndexOutOfRange := by
  refine ⟨rfl, ?_⟩
  simp only [exC10Events, runTabBarEvents, exC10_redraw, exC10_hover]

theorem runTabBar_press_safe
    (evs : List (GlutinEvent × TermTabCollection × TabBarConfig × SizeInfo)) :
    ∀ p : TabBarProcessor,
      (cursorMovedBeforeFirstPress evs = true ∨
        p.current_mouse_position.isSome = true) →
      runTabBarEvents p evs ≠ .error .pressUnwrapCurrentPos := by
  induction evs with
  | nil =>
      intro p _ hcon
      exact Except.noConfusion hcon
  | cons hd rest ih =>
      obtain ⟨ev, tc, config, si⟩ := hd
      intro p hsafe hcon
      simp only [runTabBarEvents] at hcon
      cases hh : p.handle_event tc config si ev with
      | error e =>
          simp only [hh] at hcon
          injection hcon with he
          subst he
          obtain ⟨hnone, w, hev⟩ :=
            (handle_event_press_safe p tc config si ev).1 hh
          subst hev
          cases hsafe with
          | inl hcm => simp [cursorMovedBeforeFirstPress] at hcm
          | inr hsome =>
              rw [hnone] at hsome
              exact Bool.noConfusion hsome
      | ok pr =>
          obtain ⟨p', res⟩ := pr
          simp only [hh] at hcon
          refine ih p' ?_ hcon
          obtain ⟨hpres, hcm⟩ :=
            (handle_event_press_safe p tc config si ev).2 p' res hh
          cases ev with
          | CursorMoved w pos =>
              refine Or.inr ?_
              rw [hcm w pos rfl]
              rfl
          | RedrawRequested w =>
              cases hsafe with
              | inl hfm => exact Or.inl hfm
              | inr hsome =>
                  refine Or.inr ?_
                  rw [hpres (fun w' pos h' => GlutinEvent.noConfusion h')]
                  exact hsome
          | Other =>
              cases hsafe with
              | inl hfm => exact Or.inl hfm
              | inr hsome =>
                  refine Or.inr ?_
                  rw [hpres (fun w' pos h' => GlutinEvent.noConfusion h')]
                  exact hsome
          | MouseInput w pressed left =>
              cases hsafe with
              | inl hfm =>
                  have hfm' : (if (pressed && left) = true then false
                      else cursorMovedBeforeFirstPress rest) = true := hfm
                  by_cases hpl : (pressed && left) = true
                  · rw [if_pos hpl] at hfm'
                    exact Bool.noConfusion hfm'
                  · rw [if_neg hpl] at hfm'
                    exact Or.inl hfm'
              | inr hsome =>
                  refine Or.inr ?_
                  rw [hpres (fun w' pos h' => GlutinEvent.noConfusion h')]
                  exact hsome

/-- C10 (amended).  Starting from a freshly constructed processor
(`current_mouse_position = None`), if a `CursorMoved` event is delivered
before the first left-button `MouseInput(Pressed)` event then no event of
the sequence panics at the `current_mouse_position.unwrap()` of the
mouse-pressed branch: that unwrap is reachable only with a `Some` value.
(The stronger claim that `handle_event` completes without panicking at all
under this precondition is false: the hover path can still index a stale or
short snapshot out of range.) -/
theorem C10_press_unwrap_amended (st : TabBarState)
    (evs : List (GlutinEvent × TermTabCollection × TabBarConfig × SizeInfo))
    (h : cursorMovedBeforeFirstPress evs = true) :
    runTabBarEvents (TabBarProcessor.new st) evs ≠
      Except.error TabBarPanic.pressUnwrapCurrentPos :=
  runTabBar_press_safe evs (TabBarProcessor.new st) (Or.inl h)

/-- C10 witness: the two-event trace of the counterexample satisfies the
precondition, so it cannot end in the press-unwrap panic (it panics at the
snapshot indexing instead). -/
theorem C10_press_unwrap_amended_witness :
    cursorMovedBeforeFirstPress exC10Events = true ∧
    runTabBarEvents (TabBarProcessor.new TabBarState.new) exC10Events ≠
      Except.error TabBarPanic.pressUnwrapCurrentPos :=
  ⟨rfl, C10_press_unwrap_amended TabBarState.new exC10Events rfl⟩

end Alacritty
